import Mathlib

/-!
Verification of the klatt formant-synthesis library.

This file gives a shallow embedding of the two subsystems of the library:

* `PolyReal`: the rational-polynomial algebra module (`poly_real.rs`),
  embedded over `ℚ` (exact arithmetic in place of `f64`).  Polynomials are
  coefficient lists in ascending powers, exactly as in the source.

* `Klatt`: the filter bank and sample generator (`klatt.rs`), embedded over
  an IEEE-style float model `F` (a real number, one of the two infinities,
  or NaN), so that the NaN/infinity branches of the source are represented
  faithfully.

Each definition mirrors one function of the Rust source; theorems about the
spec's claims follow at the end of the file.
-/

set_option maxHeartbeats 1000000
set_option maxRecDepth 8000

namespace PolyReal

/-- Embedding of `compare_equal` from poly_real.rs: coefficient-wise equality
of two polynomials within a tolerance. -/
def compareEqual (a1 a2 : List ℚ) (eps : Option ℚ) : Bool :=
  let e := eps.getD 0
  let n1 := a1.length - 1
  let n2 := a2.length - 1
  let n := max n1 n2
  (List.range (n + 1)).all (fun i =>
    let v1 := if i ≤ n1 then a1.getD i 0 else 0
    let v2 := if i ≤ n2 then a2.getD i 0 else 0
    |v1 - v2| ≤ e)

/-- Embedding of `trim` from poly_real.rs: drops top-order coefficients whose
magnitude is at most `eps`; a polynomial that trims to nothing becomes `[0]`.
The while loop of the source strips trailing small coefficients, rendered
here as a `dropWhile` on the reversed list. -/
def trim (a : List ℚ) (eps : Option ℚ) : Except String (List ℚ) :=
  let e := eps.getD 0
  match a.getLast? with
  | none => .error "Zero length array."
  | some last =>
    if e < |last| then .ok a
    else
      let t := (a.reverse.dropWhile (fun x => |x| ≤ e)).reverse
      if t.isEmpty then .ok [0] else .ok t

/-- Embedding of `div_by_real` from poly_real.rs. -/
def divByReal (a : List ℚ) (b : ℚ) : List ℚ :=
  a.map (fun x => x / b)

/-- Embedding of `make_monic` from poly_real.rs: divides all coefficients by
the leading coefficient; fails when the leading coefficient is zero. -/
def makeMonic (a : List ℚ) : Except String (List ℚ) :=
  match a.getLast? with
  | none => .error "Zero length array."
  | some lc =>
    if lc = 1 then .ok a
    else if lc = 0 then .error "Leading coefficient is zero."
    else .ok ((a.dropLast.map (fun x => x / lc)) ++ [1])

/-- Embedding of `multiply` from poly_real.rs: convolution of coefficients,
with the literal-zero-polynomial short circuit, followed by `trim`.
The inner accumulation loop `for j in p1..=p2` is a fold over the index
range `[p1, p2]`. -/
def multiply (a1 a2 : List ℚ) (eps : Option ℚ) : Except String (List ℚ) :=
  if a1.isEmpty || a2.isEmpty then .error "Zero len() arrays."
  else if (a1.length = 1 ∧ a1.getD 0 0 = 0) ∨ (a2.length = 1 ∧ a2.getD 0 0 = 0) then .ok [0]
  else
    let n1 := a1.length - 1
    let n2 := a2.length - 1
    let n3 := n1 + n2
    let a3 := (List.range (n3 + 1)).map (fun i =>
      let p1 := i - n2
      let p2 := min n1 i
      (List.range' p1 (p2 + 1 - p1)).foldl (fun t j => t + a1.getD j 0 * a2.getD (i - j) 0) 0)
    trim a3 eps

/-- One step of the synthetic-division loop of `divide` (loop body for a
given `i`): divides the coefficient at `n2 + i` by the leading coefficient
and subtracts `r * a2[j]` at positions `i + j` for `j < n2`. -/
def divideInner (a2 : List ℚ) (n2 : Nat) (lc2 : ℚ) (a : List ℚ) (i : Nat) : List ℚ :=
  let r := a.getD (n2 + i) 0 / lc2
  let a' := a.set (n2 + i) r
  (List.range n2).foldl (fun b j => b.set (i + j) (b.getD (i + j) 0 - r * a2.getD j 0)) a'

/-- The outer loop of `divide`, `for i in (0..=(n1-n2)).rev()`, as a
downward recursion on `i`. -/
def divideFrom (a2 : List ℚ) (n2 : Nat) (lc2 : ℚ) : Nat → List ℚ → List ℚ
  | 0, a => divideInner a2 n2 lc2 a 0
  | i + 1, a => divideFrom a2 n2 lc2 i (divideInner a2 n2 lc2 a (i + 1))

/-- Embedding of `divide` from poly_real.rs: returns `[quotient, remainder]`.
Both operands are trimmed first; a constant divisor divides coefficient-wise
(failing on zero); otherwise synthetic long division. -/
def divide (a1r a2r : List ℚ) (eps : Option ℚ) : Except String (List (List ℚ)) :=
  if a1r.isEmpty || a2r.isEmpty then .error "Zero len() arrays."
  else
    match trim a1r eps with
    | .error e => .error e
    | .ok a1 =>
      match trim a2r eps with
      | .error e => .error e
      | .ok a2 =>
        if a2.length = 1 then
          let c := a2.getD 0 0
          if c = 0 then .error "Polynomial division by zero."
          else if c = 1 then .ok [a1, [0]]
          else .ok [divByReal a1 c, [0]]
        else
          let n1 := a1.length - 1
          let n2 := a2.length - 1
          if n1 < n2 then .ok [[0], a1]
          else
            let lc2 := a2.getD n2 0
            let a := divideFrom a2 n2 lc2 (n1 - n2) a1
            match trim (a.drop n2) eps with
            | .error e => .error e
            | .ok q =>
              match trim (a.take n2) eps with
              | .error e => .error e
              | .ok r => .ok [q, r]

/-- The Euclidean loop of `gcd`, with explicit fuel (the source uses an
unbounded `loop`; the fuel passed by `gcd` below is sufficient whenever the
source loop terminates, and every theorem below is conditioned on an `ok`
result, so the fuel bound is never load-bearing). -/
def gcdAux (eps : Option ℚ) : Nat → List ℚ → List ℚ → Except String (List ℚ)
  | 0, _, _ => .error "GCD iteration limit exceeded."
  | fuel + 1, r1, r2 =>
    if r2.length < 2 then .ok [1]
    else
      match divide r1 r2 eps with
      | .error e => .error e
      | .ok d =>
        let r := d.getD 1 []
        if r.length = 1 ∧ r.getD 0 0 = 0 then .ok r2
        else
          match makeMonic r with
          | .error e => .error e
          | .ok rm => gcdAux eps fuel r2 rm

/-- Embedding of `gcd` from poly_real.rs: both operands trimmed and made
monic, the longer one first, then the Euclidean loop. -/
def gcd (a1 a2 : List ℚ) (eps : Option ℚ) : Except String (List ℚ) :=
  match trim a1 eps with
  | .error e => .error e
  | .ok t1 =>
    match trim a2 eps with
    | .error e => .error e
    | .ok t2 =>
      match makeMonic t1 with
      | .error e => .error e
      | .ok r1 =>
        match makeMonic t2 with
        | .error e => .error e
        | .ok r2 =>
          let p := if r1.length < r2.length then (r2, r1) else (r1, r2)
          gcdAux eps (p.1.length + p.2.length + 2) p.1 p.2

/-- The tolerance used by the transfer-function composition (`EPS = 1E-10`). -/
def EPS : ℚ := 1 / 10000000000

/-- Semantic interpretation of a coefficient list (ascending powers, index 0
is the constant term) as a polynomial over `ℚ`. -/
noncomputable def toPoly (a : List ℚ) : Polynomial ℚ :=
  ∑ i in Finset.range a.length, Polynomial.C (a.getD i 0) * Polynomial.X ^ i

/-- A canonical (fully trimmed at tolerance 0) coefficient list: either the
literal zero polynomial `[0]` or a list with a nonzero last coefficient. -/
def canonicalList (l : List ℚ) : Prop :=
  l = [0] ∨ (∃ c, l.getLast? = some c ∧ c ≠ 0)

end PolyReal

-- ===========================================================================
-- The klatt.rs embedding: an IEEE-style float model `F` over ℝ, the filter
-- primitives, sources and the Generator state machine.
-- ===========================================================================

open scoped Classical

/-- Model of an `f64` value: a finite real, one of the two infinities, or
NaN.  (Signed zeros and NaN payloads are not distinguished.) -/
inductive F where
  | fin : ℝ → F
  | inf : F
  | ninf : F
  | nan : F

noncomputable section

namespace F

def neg : F → F
  | fin x => fin (-x)
  | inf => ninf
  | ninf => inf
  | nan => nan

def add : F → F → F
  | nan, _ => nan
  | _, nan => nan
  | fin x, fin y => fin (x + y)
  | inf, ninf => nan
  | ninf, inf => nan
  | inf, _ => inf
  | _, inf => inf
  | ninf, _ => ninf
  | _, ninf => ninf

def mul : F → F → F
  | nan, _ => nan
  | _, nan => nan
  | fin x, fin y => fin (x * y)
  | inf, fin y => if y = 0 then nan else if 0 < y then inf else ninf
  | fin x, inf => if x = 0 then nan else if 0 < x then inf else ninf
  | ninf, fin y => if y = 0 then nan else if 0 < y then ninf else inf
  | fin x, ninf => if x = 0 then nan else if 0 < x then ninf else inf
  | inf, inf => inf
  | inf, ninf => ninf
  | ninf, inf => ninf
  | ninf, ninf => inf

/-- IEEE subtraction `x - y` coincides with `x + (-y)`. -/
def sub (a b : F) : F := add a (neg b)

def div : F → F → F
  | nan, _ => nan
  | _, nan => nan
  | fin x, fin y =>
    if y = 0 then (if x = 0 then nan else if 0 < x then inf else ninf)
    else fin (x / y)
  | fin _, inf => fin 0
  | fin _, ninf => fin 0
  | inf, fin y => if 0 ≤ y then inf else ninf
  | ninf, fin y => if 0 ≤ y then ninf else inf
  | inf, inf => nan
  | inf, ninf => nan
  | ninf, inf => nan
  | ninf, ninf => nan

instance : Neg F := ⟨F.neg⟩
instance : Add F := ⟨F.add⟩
instance : Sub F := ⟨F.sub⟩
instance : Mul F := ⟨F.mul⟩
instance : Div F := ⟨F.div⟩

/-- IEEE `<`: false whenever either side is NaN. -/
def lt : F → F → Bool
  | nan, _ => false
  | _, nan => false
  | fin x, fin y => decide (x < y)
  | fin _, inf => true
  | inf, fin _ => false
  | inf, inf => false
  | ninf, fin _ => true
  | fin _, ninf => false
  | ninf, ninf => false
  | ninf, inf => true
  | inf, ninf => false

/-- IEEE `<=`: false whenever either side is NaN. -/
def le : F → F → Bool
  | nan, _ => false
  | _, nan => false
  | fin x, fin y => decide (x ≤ y)
  | fin _, inf => true
  | inf, fin _ => false
  | inf, inf => true
  | ninf, fin _ => true
  | fin _, ninf => false
  | ninf, ninf => true
  | ninf, inf => true
  | inf, ninf => false

def gt (a b : F) : Bool := lt b a

def ge (a b : F) : Bool := le b a

/-- IEEE `==`: false whenever either side is NaN. -/
def beq : F → F → Bool
  | nan, _ => false
  | _, nan => false
  | fin x, fin y => decide (x = y)
  | inf, inf => true
  | ninf, ninf => true
  | _, _ => false

def isNanB : F → Bool
  | nan => true
  | _ => false

def isInfiniteB : F → Bool
  | inf => true
  | ninf => true
  | _ => false

def isFiniteB : F → Bool
  | fin _ => true
  | _ => false

def exp : F → F
  | fin x => fin (Real.exp x)
  | inf => inf
  | ninf => fin 0
  | nan => nan

def cos : F → F
  | fin x => fin (Real.cos x)
  | _ => nan

def sin : F → F
  | fin x => fin (Real.sin x)
  | _ => nan

def sqrt : F → F
  | fin x => if x < 0 then nan else fin (Real.sqrt x)
  | inf => inf
  | ninf => nan
  | nan => nan

/-- libm `pow`.  On finite arguments this is the real power function
`Real.rpow` (which agrees with IEEE `pow` on every combination the library
reaches: nonnegative bases, and negative bases only with integer
exponents). -/
def powF : F → F → F
  | fin x, fin y => fin (Real.rpow x y)
  | nan, fin y => if y = 0 then fin 1 else nan
  | fin x, nan => if x = 1 then fin 1 else nan
  | nan, _ => nan
  | inf, fin y => if y = 0 then fin 1 else if 0 < y then inf else fin 0
  | ninf, fin y => if y = 0 then fin 1 else nan
  | inf, nan => nan
  | ninf, nan => nan
  | fin x, inf => if |x| = 1 then fin 1 else if |x| < 1 then fin 0 else inf
  | fin x, ninf => if |x| = 1 then fin 1 else if |x| < 1 then inf else fin 0
  | inf, inf => inf
  | ninf, inf => inf
  | inf, ninf => fin 0
  | ninf, ninf => fin 0

end F

/-- Rust `f64::round`: round half away from zero. -/
def rustRound (x : ℝ) : ℤ := if 0 ≤ x then ⌊x + 1 / 2⌋ else -⌊-x + 1 / 2⌋

/-- `f64::round` lifted to the float model. -/
def F.roundF : F → F
  | F.fin x => F.fin (rustRound x : ℝ)
  | F.inf => F.inf
  | F.ninf => F.ninf
  | F.nan => F.nan

/-- The Rust cast `as usize`: truncate toward zero, saturating at 0 and at
`usize::MAX`; NaN maps to 0. -/
def F.f64toNat : F → ℕ
  | F.fin x => (⌊x⌋).toNat
  | F.inf => 2 ^ 64 - 1
  | F.ninf => 0
  | F.nan => 0

-- --- Filters ---------------------------------------------------------------

/-- Embedding of `LpFilter1` (first-order IIR low-pass filter). -/
structure LpFilter1 where
  sampleRate : ℕ
  a : F
  b : F
  y1 : F
  passthrough : Bool
  muted : Bool

def LpFilter1.new (sampleRate : ℕ) : LpFilter1 :=
  { sampleRate := sampleRate, a := F.fin 0, b := F.fin 0, y1 := F.fin 0,
    passthrough := true, muted := false }

/-- Embedding of `LpFilter1::set`.  Adjusts the filter parameters without
resetting the inner state. -/
def LpFilter1.set (s : LpFilter1) (f g : F) (extraGain : Option F) :
    Except String LpFilter1 :=
  let extraGain := extraGain.getD (F.fin 1)
  if F.le f (F.fin 0) || F.ge f (F.fin (s.sampleRate : ℝ) / F.fin 2) ||
      F.le g (F.fin 0) || F.ge g (F.fin 1) ||
      f.isInfiniteB || g.isInfiniteB || extraGain.isInfiniteB then
    .error "Invalid filter parameters."
  else
    let w := F.fin 2 * F.fin Real.pi * f / F.fin (s.sampleRate : ℝ)
    let q := (F.fin 1 - F.powF g (F.fin 2) * F.cos w) / (F.fin 1 - F.powF g (F.fin 2))
    let b := q - F.sqrt (F.powF q (F.fin 2) - F.fin 1)
    let a := (F.fin 1 - b) * extraGain
    .ok { s with b := b, a := a, passthrough := false, muted := false }

def LpFilter1.setPassthrough (s : LpFilter1) : LpFilter1 :=
  { s with passthrough := true, muted := false, y1 := F.fin 0 }

def LpFilter1.setMute (s : LpFilter1) : LpFilter1 :=
  { s with passthrough := false, muted := true, y1 := F.fin 0 }

/-- Embedding of `LpFilter1::step`. -/
def LpFilter1.step (s : LpFilter1) (x : F) : F × LpFilter1 :=
  if s.passthrough then (x, s)
  else if s.muted then (F.fin 0, s)
  else
    let y := s.a * x + s.b * s.y1
    (y, { s with y1 := y })

/-- Embedding of `Resonator` (second-order IIR filter). -/
structure Resonator where
  sampleRate : ℕ
  a : F
  b : F
  c : F
  y1 : F
  y2 : F
  r : F
  passthrough : Bool
  muted : Bool

def Resonator.new (sampleRate : ℕ) : Resonator :=
  { sampleRate := sampleRate, a := F.fin 0, b := F.fin 0, c := F.fin 0,
    y1 := F.fin 0, y2 := F.fin 0, r := F.fin 0, passthrough := true, muted := false }

/-- Embedding of `Resonator::set`.  Adjusts the filter parameters without
resetting the inner state. -/
def Resonator.set (s : Resonator) (f bw : F) (dcGain : Option F) :
    Except String Resonator :=
  let dcGain := dcGain.getD (F.fin 1)
  if F.lt f (F.fin 0) || F.ge f (F.fin (s.sampleRate : ℝ) / F.fin 2) ||
      F.le bw (F.fin 0) || F.le dcGain (F.fin 0) ||
      f.isInfiniteB || bw.isInfiniteB || dcGain.isInfiniteB then
    .error "Invalid resonator parameters."
  else
    let r := F.exp (F.neg (F.fin Real.pi) * bw / F.fin (s.sampleRate : ℝ))
    let w := F.fin 2 * F.fin Real.pi * f / F.fin (s.sampleRate : ℝ)
    let c := F.neg (F.powF r (F.fin 2))
    let b := F.fin 2 * r * F.cos w
    let a := (F.fin 1 - b - c) * dcGain
    .ok { s with r := r, c := c, b := b, a := a, passthrough := false, muted := false }

def Resonator.setPassthrough (s : Resonator) : Resonator :=
  { s with passthrough := true, muted := false, y1 := F.fin 0, y2 := F.fin 0 }

def Resonator.setMute (s : Resonator) : Resonator :=
  { s with passthrough := false, muted := true, y1 := F.fin 0, y2 := F.fin 0 }

def Resonator.adjustImpulseGain (s : Resonator) (newA : F) : Resonator :=
  { s with a := newA }

def Resonator.adjustPeakGain (s : Resonator) (peakGain : F) :
    Except String Resonator :=
  if F.le peakGain (F.fin 0) || peakGain.isInfiniteB then
    .error "Invalid resonator peak gain."
  else .ok { s with a := peakGain * (F.fin 1 - s.r) }

/-- Embedding of `Resonator::step`. -/
def Resonator.step (s : Resonator) (x : F) : F × Resonator :=
  if s.passthrough then (x, s)
  else if s.muted then (F.fin 0, s)
  else
    let y := s.a * x + s.b * s.y1 + s.c * s.y2
    (y, { s with y2 := s.y1, y1 := y })

/-- Embedding of `AntiResonator` (second-order FIR filter). -/
structure AntiResonator where
  sampleRate : ℕ
  a : F
  b : F
  c : F
  x1 : F
  x2 : F
  passthrough : Bool
  muted : Bool

def AntiResonator.new (sampleRate : ℕ) : AntiResonator :=
  { sampleRate := sampleRate, a := F.fin 0, b := F.fin 0, c := F.fin 0,
    x1 := F.fin 0, x2 := F.fin 0, passthrough := true, muted := false }

/-- Embedding of `AntiResonator::set`.  The degenerate `a0 == 0` case zeroes
the coefficients and returns Ok without touching the mode flags. -/
def AntiResonator.set (s : AntiResonator) (f bw : F) : Except String AntiResonator :=
  if F.le f (F.fin 0) || F.ge f (F.fin (s.sampleRate : ℝ) / F.fin 2) ||
      F.le bw (F.fin 0) || f.isInfiniteB || bw.isInfiniteB then
    .error "Invalid anti-resonator parameters."
  else
    let r := F.exp (F.neg (F.fin Real.pi) * bw / F.fin (s.sampleRate : ℝ))
    let w := F.fin 2 * F.fin Real.pi * f / F.fin (s.sampleRate : ℝ)
    let c0 := F.neg (r * r)
    let b0 := F.fin 2 * r * F.cos w
    let a0 := F.fin 1 - b0 - c0
    if F.beq a0 (F.fin 0) then
      .ok { s with a := F.fin 0, b := F.fin 0, c := F.fin 0 }
    else
      .ok { s with
        a := F.fin 1 / a0
        b := F.neg b0 / a0
        c := F.neg c0 / a0
        passthrough := false
        muted := false }

def AntiResonator.setPassthrough (s : AntiResonator) : AntiResonator :=
  { s with passthrough := true, muted := false, x1 := F.fin 0, x2 := F.fin 0 }

def AntiResonator.setMute (s : AntiResonator) : AntiResonator :=
  { s with passthrough := false, muted := true, x1 := F.fin 0, x2 := F.fin 0 }

/-- Embedding of `AntiResonator::step`. -/
def AntiResonator.step (s : AntiResonator) (x : F) : F × AntiResonator :=
  if s.passthrough then (x, s)
  else if s.muted then (F.fin 0, s)
  else
    let y := s.a * x + s.b * s.x1 + s.c * s.x2
    (y, { s with x2 := s.x1, x1 := x })

/-- Embedding of `DifferencingFilter` (first-order FIR HP filter). -/
structure DifferencingFilter where
  x1 : F

def DifferencingFilter.new : DifferencingFilter := { x1 := F.fin 0 }

/-- Embedding of `DifferencingFilter::step`: `y = x - x1`. -/
def DifferencingFilter.step (s : DifferencingFilter) (x : F) : F × DifferencingFilter :=
  (x - s.x1, { x1 := x })

-- --- Noise and glottal sources ---------------------------------------------

/-- The injected random-number capability: a deterministic stream of draws
with a cursor.  `stream n` is the value of the n-th call to
`random_range(-1.0..=1.0)` (the source asserts that draws lie in [-1, 1];
that is a property of the external generator, not re-modelled here). -/
structure Rng where
  stream : ℕ → ℝ
  idx : ℕ

/-- Embedding of `get_white_noise`: one draw from the generator. -/
def getWhiteNoise (r : Rng) : F × Rng :=
  (F.fin (r.stream r.idx), { r with idx := r.idx + 1 })

/-- Embedding of `LpNoiseSource`: white noise through an `LpFilter1`. -/
structure LpNoiseSource where
  lpFilter : LpFilter1
  rng : Rng

/-- Embedding of `LpNoiseSource::new`: derives the filter parameters from
the reference design (b = 0.75 at 10 kHz, measured at 1000 Hz) with the
empirical extra gain `2.5 * (sampleRate/10000)^0.33`. -/
def LpNoiseSource.new (sampleRate : ℕ) (rng : Rng) : Except String LpNoiseSource :=
  let oldB : F := F.fin (3 / 4)
  let oldSampleRate : F := F.fin 10000
  let f : F := F.fin 1000
  let g : F := (F.fin 1 - oldB) /
    F.sqrt (F.fin 1 - F.fin 2 * oldB * F.cos (F.fin 2 * F.fin Real.pi * f / oldSampleRate) +
      F.powF oldB (F.fin 2))
  let extraGain := F.fin (5 / 2) * F.powF (F.fin (sampleRate : ℝ) / F.fin 10000) (F.fin (33 / 100))
  match (LpFilter1.new sampleRate).set f g (some extraGain) with
  | .error e => .error e
  | .ok filt => .ok { lpFilter := filt, rng := rng }

/-- Embedding of `LpNoiseSource::get_next`: draw white noise, filter it. -/
def LpNoiseSource.getNext (s : LpNoiseSource) : F × LpNoiseSource :=
  let p := getWhiteNoise s.rng
  let q := s.lpFilter.step p.1
  (q.1, { lpFilter := q.2, rng := p.2 })

/-- Embedding of `ImpulsiveGlottalSource`. -/
structure ImpulsiveGlottalSource where
  sampleRate : ℕ
  resonator : Option Resonator
  positionInPeriod : ℕ

def ImpulsiveGlottalSource.new (sampleRate : ℕ) : ImpulsiveGlottalSource :=
  { sampleRate := sampleRate, resonator := none, positionInPeriod := 0 }

/-- Embedding of `ImpulsiveGlottalSource::start_period`. -/
def ImpulsiveGlottalSource.startPeriod (s : ImpulsiveGlottalSource)
    (openPhaseLength : ℕ) : Except String ImpulsiveGlottalSource :=
  if openPhaseLength = 0 then .ok { s with resonator := none }
  else
    let res := match s.resonator with
      | none => Resonator.new s.sampleRate
      | some r => r
    let bw := F.fin (s.sampleRate : ℝ) / F.fin (openPhaseLength : ℝ)
    match res.set (F.fin 0) bw none with
    | .error e => .error e
    | .ok res2 =>
      .ok { s with
        resonator := some (res2.adjustImpulseGain (F.fin 1))
        positionInPeriod := 0 }

/-- Embedding of `ImpulsiveGlottalSource::get_next`: a two-sample impulse
(+1 at position 1, -1 at position 2), through the resonator. -/
def ImpulsiveGlottalSource.getNext (s : ImpulsiveGlottalSource) :
    F × ImpulsiveGlottalSource :=
  match s.resonator with
  | none => (F.fin 0, s)
  | some res =>
    let pulse := if s.positionInPeriod = 1 then F.fin 1
      else if s.positionInPeriod = 2 then F.fin (-1)
      else F.fin 0
    let q := res.step pulse
    (q.1, { s with positionInPeriod := s.positionInPeriod + 1, resonator := some q.2 })

/-- Embedding of `NaturalGlottalSource` (KLGLOTT88 model). -/
structure NaturalGlottalSource where
  x : F
  a : F
  b : F
  openPhaseLength : ℕ
  positionInPeriod : ℕ

/-- Embedding of `NaturalGlottalSource::start_period`:
`b = -5/openPhaseLength²`, `a = -b*openPhaseLength/3`. -/
def NaturalGlottalSource.startPeriod (_s : NaturalGlottalSource)
    (openPhaseLength : ℕ) : NaturalGlottalSource :=
  let b := F.neg (F.fin 5) / F.powF (F.fin (openPhaseLength : ℝ)) (F.fin 2)
  let a := F.neg b * F.fin (openPhaseLength : ℝ) / F.fin 3
  { x := F.fin 0, a := a, b := b, openPhaseLength := openPhaseLength,
    positionInPeriod := 0 }

def NaturalGlottalSource.new : NaturalGlottalSource :=
  NaturalGlottalSource.startPeriod
    { x := F.fin 0, a := F.fin 0, b := F.fin 0, openPhaseLength := 0,
      positionInPeriod := 0 } 0

/-- Embedding of `NaturalGlottalSource::get_next`. -/
def NaturalGlottalSource.getNext (s : NaturalGlottalSource) :
    F × NaturalGlottalSource :=
  let s := { s with positionInPeriod := s.positionInPeriod + 1 }
  if s.positionInPeriod ≥ s.openPhaseLength then
    (F.fin 0, { s with x := F.fin 0 })
  else
    let a := s.a + s.b
    let x := s.x + a
    (x, { s with a := a, x := x })

-- --- Frequency modulation, dB conversion -----------------------------------

/-- Embedding of `perform_frequency_modulation` (flutter):
`f0 * (1 + (sin 12.7w + sin 7.1w + sin 4.7w) * flutterLevel / 50)` with
`w = 2π·time`; returns `f0` unchanged when `flutterLevel <= 0`. -/
def performFrequencyModulation (f0 flutterLevel time : F) : F :=
  if F.le flutterLevel (F.fin 0) then f0
  else
    let w := F.fin 2 * F.fin Real.pi * time
    let a := F.sin (F.fin (127 / 10) * w) + F.sin (F.fin (71 / 10) * w) +
      F.sin (F.fin (47 / 10) * w)
    f0 * (F.fin 1 + a * flutterLevel / F.fin 50)

/-- Embedding of `db_to_lin`: 0 for `db <= -99` or NaN, else `10^(db/20)`. -/
def dbToLin (db : F) : F :=
  if F.le db (F.fin (-99)) || db.isNanB then F.fin 0
  else F.powF (F.fin 10) (db / F.fin 20)

-- --- Main parameter structures ---------------------------------------------

inductive GlottalSourceType where
  | Impulsive
  | Natural
  | Noise

def MAX_ORAL_FORMANTS : ℕ := 6

/-- Embedding of `MainParms`. -/
structure MainParms where
  sampleRate : ℕ
  glottalSourceType : GlottalSourceType

/-- Embedding of `FrameParms`. -/
structure FrameParms where
  duration : ℕ
  f0 : F
  flutterLevel : F
  openPhaseRatio : F
  breathinessDb : F
  tiltDb : F
  gainDb : F
  agcRmsLevel : F
  nasalFormantFreq : F
  nasalFormantBw : F
  oralFormantFreq : List F
  oralFormantBw : List F
  cascadeEnabled : Bool
  cascadeVoicingDb : F
  cascadeAspirationDb : F
  cascadeAspirationMod : F
  nasalAntiformantFreq : F
  nasalAntiformantBw : F
  parallelEnabled : Bool
  parallelVoicingDb : F
  parallelAspirationDb : F
  parallelAspirationMod : F
  fricationDb : F
  fricationMod : F
  parallelBypassDb : F
  nasalFormantDb : F
  oralFormantDb : List F

/-- Elementwise IEEE equality of two `Vec<f64>` values. -/
def listBeqF (as2 bs : List F) : Bool :=
  as2.length == bs.length && (List.zip as2 bs).all (fun ab => F.beq ab.1 ab.2)

/-- The derived `PartialEq` of `FrameParms`: field-wise comparison, with
IEEE `==` on every `f64` field (so any NaN field makes the comparison
false). -/
def FrameParms.beq (p q : FrameParms) : Bool :=
  p.duration == q.duration &&
  F.beq p.f0 q.f0 &&
  F.beq p.flutterLevel q.flutterLevel &&
  F.beq p.openPhaseRatio q.openPhaseRatio &&
  F.beq p.breathinessDb q.breathinessDb &&
  F.beq p.tiltDb q.tiltDb &&
  F.beq p.gainDb q.gainDb &&
  F.beq p.agcRmsLevel q.agcRmsLevel &&
  F.beq p.nasalFormantFreq q.nasalFormantFreq &&
  F.beq p.nasalFormantBw q.nasalFormantBw &&
  listBeqF p.oralFormantFreq q.oralFormantFreq &&
  listBeqF p.oralFormantBw q.oralFormantBw &&
  p.cascadeEnabled == q.cascadeEnabled &&
  F.beq p.cascadeVoicingDb q.cascadeVoicingDb &&
  F.beq p.cascadeAspirationDb q.cascadeAspirationDb &&
  F.beq p.cascadeAspirationMod q.cascadeAspirationMod &&
  F.beq p.nasalAntiformantFreq q.nasalAntiformantFreq &&
  F.beq p.nasalAntiformantBw q.nasalAntiformantBw &&
  p.parallelEnabled == q.parallelEnabled &&
  F.beq p.parallelVoicingDb q.parallelVoicingDb &&
  F.beq p.parallelAspirationDb q.parallelAspirationDb &&
  F.beq p.parallelAspirationMod q.parallelAspirationMod &&
  F.beq p.fricationDb q.fricationDb &&
  F.beq p.fricationMod q.fricationMod &&
  F.beq p.parallelBypassDb q.parallelBypassDb &&
  F.beq p.nasalFormantDb q.nasalFormantDb &&
  listBeqF p.oralFormantDb q.oralFormantDb

/-- Embedding of `FrameState` (derived linear gains of the active frame). -/
structure FrameState where
  breathinessLin : F
  gainLin : F
  cascadeVoicingLin : F
  cascadeAspirationLin : F
  parallelVoicingLin : F
  parallelAspirationLin : F
  fricationLin : F
  parallelBypassLin : F

def FrameState.new : FrameState :=
  { breathinessLin := F.fin 0, gainLin := F.fin 0, cascadeVoicingLin := F.fin 0,
    cascadeAspirationLin := F.fin 0, parallelVoicingLin := F.fin 0,
    parallelAspirationLin := F.fin 0, fricationLin := F.fin 0,
    parallelBypassLin := F.fin 0 }

/-- Embedding of `PeriodState` (state of the current F0 period). -/
structure PeriodState where
  f0 : F
  periodLength : ℕ
  openPhaseLength : ℕ
  positionInPeriod : ℕ
  lpNoise : ℕ

def PeriodState.new : PeriodState :=
  { f0 := F.fin 0, periodLength := 0, openPhaseLength := 0,
    positionInPeriod := 0, lpNoise := 0 }

/-- Embedding of the `Generator` struct.  The stored glottal-source function
pointer of the source is represented by dispatching on
`mParms.glottalSourceType` (the pointer is chosen once, deterministically
from that type, in `init_glottal_source`). -/
structure Generator where
  mParms : MainParms
  fParms : Option FrameParms
  newFParms : Option FrameParms
  fState : FrameState
  pState : Option PeriodState
  absPosition : ℕ
  tiltFilter : LpFilter1
  outputLpFilter : Resonator
  flutterTimeOffset : ℕ
  impulsiveGSource : Option ImpulsiveGlottalSource
  naturalGSource : Option NaturalGlottalSource
  aspirationSourceCasc : LpNoiseSource
  aspirationSourcePar : LpNoiseSource
  fricationSourcePar : LpNoiseSource
  nasalFormantCasc : Resonator
  nasalAntiformantCasc : AntiResonator
  oralFormantCasc : List Resonator
  nasalFormantPar : Resonator
  oralFormantPar : List Resonator
  differencingFilterPar : DifferencingFilter
  rng : Rng

-- --- Per-frame filter setters (free functions of klatt.rs) ------------------

/-- Embedding of `set_tilt_filter`. -/
def setTiltFilter (tiltFilter : LpFilter1) (tiltDb : F) : Except String LpFilter1 :=
  if F.beq tiltDb (F.fin 0) then .ok tiltFilter.setPassthrough
  else tiltFilter.set (F.fin 3000) (dbToLin (F.neg tiltDb)) none

/-- Embedding of `set_nasal_formant_casc`. -/
def setNasalFormantCasc (r : Resonator) (fp : FrameParms) : Except String Resonator :=
  if !(F.beq fp.nasalFormantFreq (F.fin 0)) && !(F.beq fp.nasalFormantBw (F.fin 0)) then
    r.set fp.nasalFormantFreq fp.nasalFormantBw none
  else .ok r.setPassthrough

/-- Embedding of `set_nasal_antiformant_casc`. -/
def setNasalAntiformantCasc (r : AntiResonator) (fp : FrameParms) :
    Except String AntiResonator :=
  if !(F.beq fp.nasalAntiformantFreq (F.fin 0)) && !(F.beq fp.nasalAntiformantBw (F.fin 0)) then
    r.set fp.nasalAntiformantFreq fp.nasalAntiformantBw
  else .ok r.setPassthrough

/-- Embedding of `set_oral_formant_casc`: missing array entries count as
NaN and put the filter into passthrough. -/
def setOralFormantCasc (r : Resonator) (fp : FrameParms) (i : ℕ) :
    Except String Resonator :=
  let f := if i < fp.oralFormantFreq.length then fp.oralFormantFreq.getD i (F.fin 0) else F.nan
  let bw := if i < fp.oralFormantBw.length then fp.oralFormantBw.getD i (F.fin 0) else F.nan
  if f.isFiniteB && bw.isFiniteB then r.set f bw none
  else .ok r.setPassthrough

/-- Embedding of `set_nasal_formant_par`. -/
def setNasalFormantPar (r : Resonator) (fp : FrameParms) : Except String Resonator :=
  if !(F.beq fp.nasalFormantFreq (F.fin 0)) && !(F.beq fp.nasalFormantBw (F.fin 0)) &&
      !(F.beq (dbToLin fp.nasalFormantDb) (F.fin 0)) then
    match r.set fp.nasalFormantFreq fp.nasalFormantBw none with
    | .error e => .error e
    | .ok r2 => r2.adjustPeakGain (dbToLin fp.nasalFormantDb)
  else .ok r.setMute

/-- Embedding of `set_oral_formant_par`: peak gain for formants 2-6 is
compensated by the differencing-filter gain `sqrt(2 - 2 cos w)`. -/
def setOralFormantPar (r : Resonator) (mParms : MainParms) (fp : FrameParms) (i : ℕ) :
    Except String Resonator :=
  let formant := i + 1
  let f := if i < fp.oralFormantFreq.length then fp.oralFormantFreq.getD i (F.fin 0) else F.nan
  let bw := if i < fp.oralFormantBw.length then fp.oralFormantBw.getD i (F.fin 0) else F.nan
  let db := if i < fp.oralFormantDb.length then fp.oralFormantDb.getD i (F.fin 0) else F.nan
  let peakGain := dbToLin db
  if f.isFiniteB && bw.isFiniteB && peakGain.isFiniteB then
    match r.set f bw none with
    | .error e => .error e
    | .ok r2 =>
      let w := F.fin 2 * F.fin Real.pi * f / F.fin (mParms.sampleRate : ℝ)
      let diffGain := F.sqrt (F.fin 2 - F.fin 2 * F.cos w)
      let filterGain := if formant ≥ 2 then peakGain / diffGain else peakGain
      r2.adjustPeakGain filterGain
  else .ok r.setMute

/-- The `for i in 0..MAX_ORAL_FORMANTS { setter(&mut rs[i], i)? }` loops of
`start_using_new_frame_parameters`, as an index-passing traversal. -/
def setEachResonator (setter : ℕ → Resonator → Except String Resonator) :
    ℕ → List Resonator → Except String (List Resonator)
  | _, [] => .ok []
  | i, r :: rest =>
    match setter i r with
    | .error e => .error e
    | .ok r' =>
      match setEachResonator setter (i + 1) rest with
      | .error e => .error e
      | .ok rest' => .ok (r' :: rest')

-- --- Generator methods ------------------------------------------------------

/-- Embedding of `Generator::new`.  `rng` is the injected random capability;
`flutterTimeOffset` models the draw `rng.random_range(0..=1000)` made during
construction.  The three noise sources receive `rng.clone()`, i.e. the same
generator state. -/
def Generator.new (mParms : MainParms) (rng : Rng) (flutterTimeOffset : ℕ) :
    Except String Generator :=
  match LpNoiseSource.new mParms.sampleRate rng with
  | .error e => .error e
  | .ok aspCasc =>
    match LpNoiseSource.new mParms.sampleRate rng with
    | .error e => .error e
    | .ok aspPar =>
      match LpNoiseSource.new mParms.sampleRate rng with
      | .error e => .error e
      | .ok fricPar =>
        match (Resonator.new mParms.sampleRate).set (F.fin 0)
            (F.fin (mParms.sampleRate : ℝ) / F.fin 2) none with
        | .error e => .error e
        | .ok outputLp =>
          .ok {
            mParms := mParms
            fParms := none
            newFParms := none
            fState := FrameState.new
            pState := none
            absPosition := 0
            tiltFilter := LpFilter1.new mParms.sampleRate
            outputLpFilter := outputLp
            flutterTimeOffset := flutterTimeOffset
            impulsiveGSource :=
              match mParms.glottalSourceType with
              | GlottalSourceType.Impulsive =>
                some (ImpulsiveGlottalSource.new mParms.sampleRate)
              | _ => none
            naturalGSource :=
              match mParms.glottalSourceType with
              | GlottalSourceType.Natural => some NaturalGlottalSource.new
              | _ => none
            aspirationSourceCasc := aspCasc
            aspirationSourcePar := aspPar
            fricationSourcePar := fricPar
            nasalFormantCasc := Resonator.new mParms.sampleRate
            nasalAntiformantCasc := AntiResonator.new mParms.sampleRate
            oralFormantCasc := List.replicate MAX_ORAL_FORMANTS (Resonator.new mParms.sampleRate)
            nasalFormantPar := Resonator.new mParms.sampleRate
            oralFormantPar := List.replicate MAX_ORAL_FORMANTS (Resonator.new mParms.sampleRate)
            differencingFilterPar := DifferencingFilter.new
            rng := rng }

/-- Embedding of `Generator::start_using_new_frame_parameters`: recompute
the derived linear gains and retune every filter for the newly activated
frame parameters. -/
def startUsingNewFrameParameters (g : Generator) : Except String Generator :=
  match g.fParms with
  | none => .error "panic: f_parms is None"
  | some fp =>
    let db := if fp.gainDb.isFiniteB then fp.gainDb else F.fin 0
    let fState : FrameState := {
      breathinessLin := dbToLin fp.breathinessDb
      gainLin := dbToLin db
      cascadeVoicingLin := dbToLin fp.cascadeVoicingDb
      cascadeAspirationLin := dbToLin fp.cascadeAspirationDb
      parallelVoicingLin := dbToLin fp.parallelVoicingDb
      parallelAspirationLin := dbToLin fp.parallelAspirationDb
      fricationLin := dbToLin fp.fricationDb
      parallelBypassLin := dbToLin fp.parallelBypassDb }
    match setTiltFilter g.tiltFilter fp.tiltDb with
    | .error e => .error e
    | .ok tilt =>
      match setNasalFormantCasc g.nasalFormantCasc fp with
      | .error e => .error e
      | .ok nfc =>
        match setNasalAntiformantCasc g.nasalAntiformantCasc fp with
        | .error e => .error e
        | .ok nafc =>
          match setEachResonator (fun i r => setOralFormantCasc r fp i) 0 g.oralFormantCasc with
          | .error e => .error e
          | .ok ofc =>
            match setNasalFormantPar g.nasalFormantPar fp with
            | .error e => .error e
            | .ok nfp =>
              match setEachResonator (fun i r => setOralFormantPar r g.mParms fp i) 0
                  g.oralFormantPar with
              | .error e => .error e
              | .ok ofp =>
                .ok { g with
                  fState := fState
                  tiltFilter := tilt
                  nasalFormantCasc := nfc
                  nasalAntiformantCasc := nafc
                  oralFormantCasc := ofc
                  nasalFormantPar := nfp
                  oralFormantPar := ofp }

/-- Embedding of `Generator::start_glottal_source_period`. -/
def startGlottalSourcePeriod (g : Generator) : Except String Generator :=
  match g.mParms.glottalSourceType with
  | GlottalSourceType.Impulsive =>
    match g.impulsiveGSource, g.pState with
    | some s, some ps =>
      match s.startPeriod ps.openPhaseLength with
      | .error e => .error e
      | .ok s' => .ok { g with impulsiveGSource := some s' }
    | _, _ => .error "panic: unwrap on None"
  | GlottalSourceType.Natural =>
    match g.naturalGSource, g.pState with
    | some s, some ps => .ok { g with naturalGSource := some (s.startPeriod ps.openPhaseLength) }
    | _, _ => .error "panic: unwrap on None"
  | GlottalSourceType.Noise => .ok g

/-- The `time` value computed at a period boundary: integer (usize) division
of the absolute sample position by the sample rate, plus the per-run flutter
offset. -/
def flutterTime (g : Generator) : ℕ :=
  g.absPosition / g.mParms.sampleRate + g.flutterTimeOffset

/-- The body of `Generator::start_new_period` after frame promotion:
recompute the modulated f0, the period and open-phase lengths, reset the
position, and restart the glottal source. -/
def startNewPeriodCore (g : Generator) : Except String Generator :=
  let ps0 := g.pState.getD PeriodState.new
  match g.fParms with
  | none => .error "panic: f_parms is None"
  | some fp =>
    let f0 := performFrequencyModulation fp.f0 fp.flutterLevel (F.fin (flutterTime g : ℝ))
    let periodLength :=
      if F.gt f0 (F.fin 0) then
        (F.roundF (F.fin (g.mParms.sampleRate : ℝ) / f0)).f64toNat
      else 1
    let openPhaseLength :=
      if periodLength > 1 then
        (F.roundF (F.fin (periodLength : ℝ) * fp.openPhaseRatio)).f64toNat
      else 0
    let ps := { ps0 with
      f0 := f0
      periodLength := periodLength
      openPhaseLength := openPhaseLength
      positionInPeriod := 0 }
    startGlottalSourcePeriod { g with pState := some ps }

/-- Embedding of `Generator::start_new_period`: pending frame parameters
are promoted first (and the derived state recomputed), then the new period
state is derived. -/
def startNewPeriod (g : Generator) : Except String Generator :=
  match g.newFParms with
  | some nf =>
    match startUsingNewFrameParameters { g with fParms := some nf, newFParms := none } with
    | .error e => .error e
    | .ok g2 => startNewPeriodCore g2
  | none => startNewPeriodCore g

/-- Sequential stepping of the cascade formant chain
(`for i in 0..MAX_ORAL_FORMANTS { v = casc[i].step(v) }`). -/
def stepResonatorList : List Resonator → F → F × List Resonator
  | [], v => (v, [])
  | r :: rest, v =>
    let q := r.step v
    let q2 := stepResonatorList rest q.1
    (q2.1, q.2 :: q2.2)

/-- Embedding of `Generator::compute_cascade_branch`. -/
def computeCascadeBranch (g : Generator) (voice : F) : F × Generator :=
  match g.fParms, g.pState with
  | some fp, some ps =>
    let cascadeVoice := voice * g.fState.cascadeVoicingLin
    let currentAspirationMod :=
      if ps.positionInPeriod ≥ ps.periodLength / 2 then fp.cascadeAspirationMod else F.fin 0
    let qn := g.aspirationSourceCasc.getNext
    let aspiration := qn.1 * g.fState.cascadeAspirationLin * (F.fin 1 - currentAspirationMod)
    let v := cascadeVoice + aspiration
    let q1 := g.nasalAntiformantCasc.step v
    let q2 := g.nasalFormantCasc.step q1.1
    let q3 := stepResonatorList g.oralFormantCasc q2.1
    (q3.1, { g with
      aspirationSourceCasc := qn.2
      nasalAntiformantCasc := q1.2
      nasalFormantCasc := q2.2
      oralFormantCasc := q3.2 })
  | _, _ => (F.fin 0, g)

/-- The loop `for i in 1..MAX_ORAL_FORMANTS` of the parallel branch, with
the alternating sign `if i % 2 == 0 { 1.0 } else { -1.0 }`. -/
def parallelFormantLoop (source2 : F) : List ℕ → F × List Resonator → F × List Resonator
  | [], acc => acc
  | i :: rest, acc =>
    let r := acc.2.getD i (Resonator.new 0)
    let q := r.step source2
    let sign := if i % 2 = 0 then F.fin 1 else F.fin (-1)
    parallelFormantLoop source2 rest (acc.1 + sign * q.1, acc.2.set i q.2)

/-- Embedding of `Generator::compute_parallel_branch`. -/
def computeParallelBranch (g : Generator) (voice : F) : F × Generator :=
  match g.fParms, g.pState with
  | some fp, some ps =>
    let parallelVoice := voice * g.fState.parallelVoicingLin
    let currentAspirationMod :=
      if ps.positionInPeriod ≥ ps.periodLength / 2 then fp.parallelAspirationMod else F.fin 0
    let qa := g.aspirationSourcePar.getNext
    let aspiration := qa.1 * g.fState.parallelAspirationLin * (F.fin 1 - currentAspirationMod)
    let source := parallelVoice + aspiration
    let qd := g.differencingFilterPar.step source
    let sourceDifference := qd.1
    let currentFricationMod :=
      if ps.positionInPeriod ≥ ps.periodLength / 2 then fp.fricationMod else F.fin 0
    let qf := g.fricationSourcePar.getNext
    let fricationNoise := qf.1 * g.fState.fricationLin * (F.fin 1 - currentFricationMod)
    let source2 := sourceDifference + fricationNoise
    let v := F.fin 0
    let q1 := g.nasalFormantPar.step source
    let v := v + q1.1
    let q2 := (g.oralFormantPar.getD 0 (Resonator.new 0)).step source
    let v := v + q2.1
    let rs := g.oralFormantPar.set 0 q2.2
    let q3 := parallelFormantLoop source2 (List.range' 1 (MAX_ORAL_FORMANTS - 1)) (v, rs)
    let v := q3.1 + g.fState.parallelBypassLin * source2
    (v, { g with
      aspirationSourcePar := qa.2
      differencingFilterPar := qd.2
      fricationSourcePar := qf.2
      nasalFormantPar := q1.2
      oralFormantPar := q3.2 })
  | _, _ => (F.fin 0, g)

/-- Embedding of `Generator::compute_next_output_signal_sample`. -/
def computeNextOutputSignalSample (g : Generator) : F × Generator :=
  let gv : F × Generator :=
    match g.mParms.glottalSourceType with
    | GlottalSourceType.Impulsive =>
      match g.impulsiveGSource with
      | some s =>
        let q := s.getNext
        (q.1, { g with impulsiveGSource := some q.2 })
      | none => (F.fin 0, g)
    | GlottalSourceType.Natural =>
      match g.naturalGSource with
      | some s =>
        let q := s.getNext
        (q.1, { g with naturalGSource := some q.2 })
      | none => (F.fin 0, g)
    | GlottalSourceType.Noise =>
      let q := getWhiteNoise g.rng
      (q.1, { g with rng := q.2 })
  let g := gv.2
  match g.fParms, g.pState with
  | some fp, some ps =>
    let qt := g.tiltFilter.step gv.1
    let g := { g with tiltFilter := qt.2 }
    let vg : F × Generator :=
      if ps.positionInPeriod < ps.openPhaseLength then
        let qn := getWhiteNoise g.rng
        (qt.1 + qn.1 * g.fState.breathinessLin, { g with rng := qn.2 })
      else (qt.1, g)
    let g := vg.2
    let cg : F × Generator :=
      if fp.cascadeEnabled then computeCascadeBranch g vg.1 else (F.fin 0, g)
    let g := cg.2
    let pg : F × Generator :=
      if fp.parallelEnabled then computeParallelBranch g vg.1 else (F.fin 0, g)
    let g := pg.2
    let out := cg.1 + pg.1
    let qo := g.outputLpFilter.step out
    let out := qo.1 * g.fState.gainLin
    (out, { g with outputLpFilter := qo.2 })
  | _, _ => (F.fin 0, g)

/-- Embedding of `compute_rms`. -/
def computeRms (buf : List F) : F :=
  F.sqrt ((buf.foldl (fun acc f => acc + F.powF f (F.fin 2)) (F.fin 0)) /
    F.fin (buf.length : ℝ))

/-- Embedding of `adjust_signal_gain` (AGC): rescale the buffer so its RMS
matches the target, skipping empty and all-zero buffers. -/
def adjustSignalGain (buf : List F) (targetRms : F) : List F :=
  if buf.length = 0 then buf
  else
    let rms := computeRms buf
    if F.beq rms (F.fin 0) then buf
    else
      let r := targetRms / rms
      buf.map (fun b => b * r)

/-- The error message of the frame-parameter reuse check. -/
def reuseErrorMsg : String := "FrameParms structure must not be re-used."

/-- The per-sample loop of `generate_frame`: start a new period when the
position has reached the period length (or no period exists yet), compute
one sample, advance the position and the absolute position. -/
def genLoop : ℕ → Generator → List F → Except String (Generator × List F)
  | 0, g, acc => .ok (g, acc)
  | n + 1, g, acc =>
    match
      (match g.pState with
       | some ps =>
         if ps.positionInPeriod ≥ ps.periodLength then startNewPeriod g else .ok g
       | none => startNewPeriod g) with
    | .error e => .error e
    | .ok g1 =>
      let sq := computeNextOutputSignalSample g1
      let g3 := { sq.2 with
        pState := sq.2.pState.map (fun ps => { ps with positionInPeriod := ps.positionInPeriod + 1 })
        absPosition := sq.2.absPosition + 1 }
      genLoop n g3 (acc ++ [sq.1])

/-- The body of `generate_frame` after the reuse check: stash the new frame
parameters (they become active at the next period boundary), run the
per-sample loop, then apply AGC when the gain is the NaN sentinel. -/
def generateFrameBody (g : Generator) (fp : FrameParms) (n : ℕ) :
    Except String (Generator × List F) :=
  match genLoop n { g with newFParms := some fp } [] with
  | .error e => .error e
  | .ok gb =>
    let buf := if fp.gainDb.isNanB then adjustSignalGain gb.2 fp.agcRmsLevel else gb.2
    .ok (gb.1, buf)

/-- Embedding of `Generator::generate_frame`: fails when the supplied frame
parameters compare equal (derived `PartialEq`) to the currently active
ones; the buffer length `n` determines the number of samples. -/
def generateFrame (g : Generator) (fp : FrameParms) (n : ℕ) :
    Except String (Generator × List F) :=
  match g.fParms with
  | some parms =>
    if FrameParms.beq parms fp then .error reuseErrorMsg
    else generateFrameBody g fp n
  | none => generateFrameBody g fp n

-- --- Spec-side definition for the parallel-branch claim ---------------------

/-- Modelled from the spec: the formant loop of the parallel branch with the
sign pattern claimed by the spec — `+,-,+,-,+` for oral formants 2-6, i.e.
`+1` for odd `i` — instead of the code's `if i % 2 == 0 { 1.0 } else
{ -1.0 }`.  Used only to compare the claimed output with the code's. -/
def parallelFormantLoopSpec (source2 : F) : List ℕ → F × List Resonator → F × List Resonator
  | [], acc => acc
  | i :: rest, acc =>
    let r := acc.2.getD i (Resonator.new 0)
    let q := r.step source2
    let sign := if i % 2 = 1 then F.fin 1 else F.fin (-1)
    parallelFormantLoopSpec source2 rest (acc.1 + sign * q.1, acc.2.set i q.2)

/-- Modelled from the spec: the parallel-branch output as the claim states
it — identical to `computeParallelBranch` except that the oral formants 2-6
receive the claimed signs `+,-,+,-,+`. -/
def claimedParallelBranchOutput (g : Generator) (voice : F) : F :=
  match g.fParms, g.pState with
  | some fp, some ps =>
    let parallelVoice := voice * g.fState.parallelVoicingLin
    let currentAspirationMod :=
      if ps.positionInPeriod ≥ ps.periodLength / 2 then fp.parallelAspirationMod else F.fin 0
    let qa := g.aspirationSourcePar.getNext
    let aspiration := qa.1 * g.fState.parallelAspirationLin * (F.fin 1 - currentAspirationMod)
    let source := parallelVoice + aspiration
    let qd := g.differencingFilterPar.step source
    let sourceDifference := qd.1
    let currentFricationMod :=
      if ps.positionInPeriod ≥ ps.periodLength / 2 then fp.fricationMod else F.fin 0
    let qf := g.fricationSourcePar.getNext
    let fricationNoise := qf.1 * g.fState.fricationLin * (F.fin 1 - currentFricationMod)
    let source2 := sourceDifference + fricationNoise
    let v := F.fin 0
    let q1 := g.nasalFormantPar.step source
    let v := v + q1.1
    let q2 := (g.oralFormantPar.getD 0 (Resonator.new 0)).step source
    let v := v + q2.1
    let rs := g.oralFormantPar.set 0 q2.2
    let q3 := parallelFormantLoopSpec source2 (List.range' 1 (MAX_ORAL_FORMANTS - 1)) (v, rs)
    q3.1 + g.fState.parallelBypassLin * source2
  | _, _ => F.fin 0

end

-- ===========================================================================
-- Theorems.  Everything below this line is a lemma or a claim-level theorem
-- about the definitions above.
-- ===========================================================================

namespace PolyReal

/-- A list produced by `makeMonic` always ends in the coefficient `1`. -/
theorem makeMonic_getLast {a b : List ℚ} (h : makeMonic a = .ok b) :
    b.getLast? = some 1 := by
  unfold makeMonic at h
  split at h
  · simp at h
  · rename_i lc ha
    split at h
    · rename_i h1
      cases h
      rw [ha, h1]
    · split at h
      · simp at h
      · cases h
        simp

/-- Invariant of the Euclidean loop: as long as the second argument is monic,
an `ok` result is either `[1]` or a monic list of length at least 2. -/
theorem gcdAux_ok_shape (eps : Option ℚ) :
    ∀ (fuel : Nat) (r1 r2 g : List ℚ), r2.getLast? = some 1 →
      gcdAux eps fuel r1 r2 = .ok g →
      g = [1] ∨ (2 ≤ g.length ∧ g.getLast? = some 1) := by
  intro fuel
  induction fuel with
  | zero => intro r1 r2 g _ h; exact absurd h (by simp [gcdAux])
  | succ n ih =>
    intro r1 r2 g hmon h
    rw [gcdAux] at h
    split at h
    · cases h
      exact Or.inl rfl
    · rename_i hlen
      split at h
      · simp at h
      · rename_i d hdiv
        dsimp only at h
        split at h
        · cases h
          exact Or.inr ⟨Nat.le_of_not_lt hlen, hmon⟩
        · split at h
          · simp at h
          · rename_i rm hmm
            exact ih r2 rm g (makeMonic_getLast hmm) h

/-- The k-th coefficient of the interpreted polynomial is the k-th list
entry (0 beyond the end). -/
theorem coeff_toPoly (a : List ℚ) (k : ℕ) : (toPoly a).coeff k = a.getD k 0 := by
  unfold toPoly
  rw [Polynomial.finset_sum_coeff]
  simp only [Polynomial.coeff_C_mul_X_pow]
  rw [Finset.sum_ite_eq (Finset.range a.length) k (fun i => a.getD i 0)]
  by_cases hk : k < a.length
  · rw [if_pos (Finset.mem_range.mpr hk)]
  · rw [if_neg (fun hc => hk (Finset.mem_range.mp hc)),
      List.getD_eq_default _ _ (Nat.le_of_not_lt hk)]

/-- Lists with the same entries interpret to the same polynomial. -/
theorem toPoly_ext {a b : List ℚ} (h : ∀ k, a.getD k 0 = b.getD k 0) :
    toPoly a = toPoly b :=
  Polynomial.ext fun k => by rw [coeff_toPoly, coeff_toPoly, h]

theorem toPoly_coeff_zero {a : List ℚ} {k : ℕ} (h : a.length ≤ k) :
    (toPoly a).coeff k = 0 := by
  rw [coeff_toPoly, List.getD_eq_default _ _ h]

theorem toPoly_nil : toPoly ([] : List ℚ) = 0 := by
  unfold toPoly
  simp

theorem toPoly_zero_singleton : toPoly [(0 : ℚ)] = 0 := by
  unfold toPoly
  simp

theorem degree_toPoly_lt (a : List ℚ) : (toPoly a).degree < a.length :=
  (Polynomial.degree_lt_iff_coeff_zero _ _).mpr fun _ hm => toPoly_coeff_zero hm

theorem natDegree_toPoly_lt {a : List ℚ} (h : toPoly a ≠ 0) :
    (toPoly a).natDegree < a.length := by
  have hd := degree_toPoly_lt a
  rw [Polynomial.degree_eq_natDegree h] at hd
  exact_mod_cast hd

/-- Splitting a concatenated coefficient list. -/
theorem toPoly_append (xs ys : List ℚ) :
    toPoly (xs ++ ys) = toPoly xs + Polynomial.X ^ xs.length * toPoly ys := by
  apply Polynomial.ext
  intro k
  rw [Polynomial.coeff_add, coeff_toPoly, coeff_toPoly, Polynomial.coeff_X_pow_mul',
    coeff_toPoly]
  by_cases hk : k < xs.length
  · rw [List.getD_append _ _ _ _ hk, if_neg (Nat.not_le_of_lt hk), add_zero]
  · rw [List.getD_append_right _ _ _ _ (Nat.le_of_not_lt hk),
      if_pos (Nat.le_of_not_lt hk), List.getD_eq_default _ _ (Nat.le_of_not_lt hk), zero_add]

/-- A list whose entries are all zero interprets to the zero polynomial. -/
theorem toPoly_eq_zero_of_all_zero {a : List ℚ} (h : ∀ x ∈ a, x = 0) :
    toPoly a = 0 := by
  apply Polynomial.ext
  intro k
  rw [coeff_toPoly, Polynomial.coeff_zero]
  by_cases hk : k < a.length
  · rw [List.getD_eq_getElem _ _ hk]
    exact h _ (a.getElem_mem hk)
  · exact List.getD_eq_default _ _ (Nat.le_of_not_lt hk)

/-- The head of a `dropWhile` result falsifies the predicate. -/
theorem head?_dropWhile_false {p : ℚ → Bool} {l : List ℚ} {x : ℚ}
    (h : (l.dropWhile p).head? = some x) : p x = false := by
  induction l with
  | nil => simp at h
  | cons a as ih =>
    rw [List.dropWhile_cons] at h
    by_cases hp : p a
    · rw [if_pos hp] at h
      exact ih h
    · rw [if_neg hp] at h
      simp at h
      rw [← h]
      simpa using hp

/-- The last entry of a nonempty canonical-or-not list, via `getD`. -/
theorem getLast?_eq_getD {l : List ℚ} {c : ℚ} (h : l.getLast? = some c) :
    l.getD (l.length - 1) 0 = c := by
  cases l with
  | nil => simp at h
  | cons a as =>
    rw [List.getLast?_eq_getElem?] at h
    rw [List.getD_eq_getElem?_getD, h]
    rfl

/-- A canonical list is uniquely determined by its polynomial. -/
theorem canonicalList_unique {l1 l2 : List ℚ} (h1 : canonicalList l1)
    (h2 : canonicalList l2) (h : toPoly l1 = toPoly l2) : l1 = l2 := by
  have hgetD : ∀ k, l1.getD k 0 = l2.getD k 0 := fun k => by
    rw [← coeff_toPoly, ← coeff_toPoly, h]
  have haux : ∀ m1 m2 : List ℚ, canonicalList m1 → canonicalList m2 →
      (∀ k, m1.getD k 0 = m2.getD k 0) → m2.length ≤ m1.length := by
    intro m1 m2 hc1 hc2 hg
    by_contra hlt
    push_neg at hlt
    rcases hc2 with h20 | ⟨c, hc, hcne⟩
    · subst h20
      have hm1nil : m1 = [] := by
        have h0 : m1.length < 1 := by simpa using hlt
        exact List.length_eq_zero.mp (Nat.lt_one_iff.mp h0)
      rcases hc1 with h10 | ⟨c1, hc1', _⟩
      · rw [h10] at hm1nil
        simp at hm1nil
      · rw [hm1nil] at hc1'
        simp at hc1'
    · apply hcne
      have hidx : m1.length ≤ m2.length - 1 := by omega
      rw [← getLast?_eq_getD hc, ← hg _, List.getD_eq_default _ _ hidx]
  have hleneq : l1.length = l2.length :=
    Nat.le_antisymm (haux l2 l1 h2 h1 (fun k => (hgetD k).symm)) (haux l1 l2 h1 h2 hgetD)
  apply List.ext_getElem hleneq
  intro n hn1 hn2
  rw [← List.getD_eq_getElem l1 0 hn1, ← List.getD_eq_getElem l2 0 hn2]
  exact hgetD n

/-- `trim` never fails on a nonempty list. -/
theorem trim_ok_of_ne_nil {a : List ℚ} (ha : a ≠ []) (eps : Option ℚ) :
    ∃ t, trim a eps = .ok t := by
  unfold trim
  cases hl : a.getLast? with
  | none => exact absurd (List.getLast?_eq_none_iff.mp hl) ha
  | some last =>
    dsimp only
    by_cases hgt : eps.getD 0 < |last|
    · rw [if_pos hgt]
      exact ⟨a, rfl⟩
    · rw [if_neg hgt]
      by_cases hemp : ((a.reverse.dropWhile (fun x => |x| ≤ eps.getD 0)).reverse).isEmpty
      · rw [if_pos hemp]
        exact ⟨[0], rfl⟩
      · rw [if_neg hemp]
        exact ⟨_, rfl⟩

/-- Semantics of `trim` at tolerance 0: the interpreted polynomial is
unchanged and the result is canonical. -/
theorem trim_spec {a t : List ℚ} {eps : Option ℚ} (he : eps.getD 0 = 0)
    (h : trim a eps = .ok t) :
    toPoly t = toPoly a ∧ canonicalList t := by
  unfold trim at h
  rw [he] at h
  cases hl : a.getLast? with
  | none => rw [hl] at h; simp at h
  | some last =>
    rw [hl] at h
    dsimp only at h
    by_cases hlast : (0 : ℚ) < |last|
    · rw [if_pos hlast] at h
      cases h
      refine ⟨rfl, Or.inr ⟨last, hl, fun hc => ?_⟩⟩
      subst hc
      simp at hlast
    · rw [if_neg hlast] at h
      have hsplit := List.takeWhile_append_dropWhile (p := fun x : ℚ => |x| ≤ 0) (l := a.reverse)
      have hzero : ∀ x ∈ a.reverse.takeWhile (fun x : ℚ => |x| ≤ 0), x = 0 := by
        intro x hx
        have := List.mem_takeWhile_imp hx
        exact abs_nonpos_iff.mp (by exact_mod_cast of_decide_eq_true this)
      by_cases hemp : ((a.reverse.dropWhile (fun x : ℚ => |x| ≤ 0)).reverse).isEmpty
      · rw [if_pos hemp] at h
        cases h
        have hdw : a.reverse.dropWhile (fun x : ℚ => |x| ≤ 0) = [] := by
          have := List.isEmpty_iff.mp hemp
          simpa using this
        have hall : ∀ x ∈ a, x = 0 := by
          intro x hx
          apply hzero
          rw [hdw, List.append_nil] at hsplit
          rw [hsplit]
          exact List.mem_reverse.mpr hx
        rw [toPoly_zero_singleton, toPoly_eq_zero_of_all_zero hall]
        exact ⟨rfl, Or.inl rfl⟩
      · rw [if_neg hemp] at h
        cases h
        constructor
        · have hdecomp : a = (a.reverse.dropWhile (fun x : ℚ => |x| ≤ 0)).reverse ++
              (a.reverse.takeWhile (fun x : ℚ => |x| ≤ 0)).reverse :=
            calc a = a.reverse.reverse := (List.reverse_reverse a).symm
              _ = ((a.reverse.takeWhile (fun x : ℚ => |x| ≤ 0)) ++
                    (a.reverse.dropWhile (fun x : ℚ => |x| ≤ 0))).reverse := by rw [hsplit]
              _ = _ := List.reverse_append _ _
          conv_rhs => rw [hdecomp]
          rw [toPoly_append, toPoly_eq_zero_of_all_zero (fun x hx =>
            hzero x (List.mem_reverse.mp hx)), mul_zero, add_zero]
        · have hne : a.reverse.dropWhile (fun x : ℚ => |x| ≤ 0) ≠ [] := by
            intro hc
            apply hemp
            rw [hc]
            rfl
          cases hh : (a.reverse.dropWhile (fun x : ℚ => |x| ≤ 0)).head? with
          | none => exact absurd (List.head?_eq_none_iff.mp hh) hne
          | some x =>
            refine Or.inr ⟨x, ?_, fun hc => ?_⟩
            · rw [List.getLast?_reverse]
              exact hh
            · subst hc
              have := head?_dropWhile_false hh
              simp at this

/-- The accumulation loop `for j in p1..p1+len { t += f j }` is a finite sum. -/
theorem foldl_range'_add (f : ℕ → ℚ) :
    ∀ (len p1 : ℕ) (c : ℚ),
      (List.range' p1 len).foldl (fun t j => t + f j) c =
        c + ∑ j in Finset.Ico p1 (p1 + len), f j := by
  intro len
  induction len with
  | zero => intro p1 c; simp
  | succ n ih =>
    intro p1 c
    rw [List.range'_succ, List.foldl_cons, ih,
      Finset.sum_eq_sum_Ico_succ_bot (by omega : p1 < p1 + (n + 1)) f]
    have harg : p1 + 1 + n = p1 + (n + 1) := by omega
    rw [harg, add_assoc, add_comm (f p1)]

/-- Entry `k` of `(range n).map f`, as a `getD`. -/
theorem getD_map_range (n : ℕ) (f : ℕ → ℚ) (k : ℕ) :
    ((List.range n).map f).getD k 0 = if k < n then f k else 0 := by
  rw [List.getD_eq_getElem?_getD, List.getElem?_map]
  by_cases hk : k < n
  · rw [List.getElem?_range hk]
    simp [hk]
  · rw [List.getElem?_eq_none (by simpa using Nat.le_of_not_lt hk)]
    simp [hk]

/-- The truncated convolution loop of `multiply` computes the full
convolution sum: terms outside `[i - n2, min n1 i]` vanish. -/
theorem conv_term_eq {a1 a2 : List ℚ} {n1 n2 : ℕ} (h1 : a1.length = n1 + 1)
    (h2 : a2.length = n2 + 1) (i : ℕ) (hi : i ≤ n1 + n2) :
    (List.range' (i - n2) (min n1 i + 1 - (i - n2))).foldl
        (fun t j => t + a1.getD j 0 * a2.getD (i - j) 0) 0 =
      ∑ j in Finset.range (i + 1), a1.getD j 0 * a2.getD (i - j) 0 := by
  rw [foldl_range'_add, zero_add]
  have hico : i - n2 + (min n1 i + 1 - (i - n2)) = min n1 i + 1 := by omega
  rw [hico]
  apply Finset.sum_subset
  · intro j hj
    rw [Finset.mem_Ico] at hj
    rw [Finset.mem_range]
    omega
  · intro j hj hnot
    rw [Finset.mem_range] at hj
    rw [Finset.mem_Ico, not_and_or] at hnot
    rcases hnot with hlo | hhi
    · push_neg at hlo
      have : n2 < i - j := by omega
      rw [List.getD_eq_default _ _ (by omega : a2.length ≤ i - j), mul_zero]
    · push_neg at hhi
      have : n1 < j := by omega
      rw [List.getD_eq_default _ _ (by omega : a1.length ≤ j), zero_mul]

/-- Interpretation of a one-element list. -/
theorem toPoly_singleton (c : ℚ) : toPoly [c] = Polynomial.C c := by
  unfold toPoly
  simp

/-- Nonzero polynomials come from nonempty lists. -/
theorem ne_nil_of_toPoly_ne_zero {a : List ℚ} (h : toPoly a ≠ 0) : a ≠ [] := by
  intro hn
  rw [hn, toPoly_nil] at h
  exact h rfl

/-- Semantics of `multiply` at tolerance 0 on nonzero operands: the result
interprets to the product polynomial and is canonical. -/
theorem multiply_spec {p q m : List ℚ} {eps : Option ℚ} (he : eps.getD 0 = 0)
    (hp : toPoly p ≠ 0) (hq : toPoly q ≠ 0) (h : multiply p q eps = .ok m) :
    toPoly m = toPoly p * toPoly q ∧ canonicalList m := by
  have hpne : p ≠ [] := ne_nil_of_toPoly_ne_zero hp
  have hqne : q ≠ [] := ne_nil_of_toPoly_ne_zero hq
  have hplen : p.length = (p.length - 1) + 1 :=
    (Nat.succ_pred_eq_of_pos (List.length_pos.mpr hpne)).symm
  have hqlen : q.length = (q.length - 1) + 1 :=
    (Nat.succ_pred_eq_of_pos (List.length_pos.mpr hqne)).symm
  unfold multiply at h
  rw [if_neg (by simp [hpne, hqne])] at h
  rw [if_neg ?hzc] at h
  case hzc =>
    rintro (⟨hl, h0⟩ | ⟨hl, h0⟩)
    · apply hp
      have : p = [p.getD 0 0] := by
        cases p with
        | nil => simp at hl
        | cons x xs =>
          cases xs with
          | nil => simp
          | cons y ys => simp at hl
      rw [this, h0, toPoly_singleton, map_zero]
    · apply hq
      have : q = [q.getD 0 0] := by
        cases q with
        | nil => simp at hl
        | cons x xs =>
          cases xs with
          | nil => simp
          | cons y ys => simp at hl
      rw [this, h0, toPoly_singleton, map_zero]
  dsimp only at h
  obtain ⟨hm, hc⟩ := trim_spec he h
  refine ⟨?_, hc⟩
  rw [hm]
  apply Polynomial.ext
  intro k
  rw [coeff_toPoly, getD_map_range]
  rw [Polynomial.coeff_mul, Finset.Nat.sum_antidiagonal_eq_sum_range_succ_mk]
  simp only [coeff_toPoly]
  by_cases hk : k < p.length - 1 + (q.length - 1) + 1
  · rw [if_pos hk]
    exact conv_term_eq hplen hqlen k (by omega)
  · rw [if_neg hk]
    symm
    apply Finset.sum_eq_zero
    intro j hj
    rw [Finset.mem_range] at hj
    by_cases hjp : j < p.length
    · have : q.length ≤ k - j := by omega
      rw [List.getD_eq_default _ _ this, mul_zero]
    · rw [List.getD_eq_default _ _ (Nat.le_of_not_lt hjp), zero_mul]

theorem getD_set_ne (l : List ℚ) {i j : ℕ} (v : ℚ) (h : i ≠ j) :
    (l.set i v).getD j 0 = l.getD j 0 := by
  rw [List.getD_eq_getElem?_getD, List.getElem?_set_ne h, ← List.getD_eq_getElem?_getD]

theorem getD_set_eq (l : List ℚ) {i : ℕ} (v : ℚ) (h : i < l.length) :
    (l.set i v).getD i 0 = v := by
  rw [List.getD_eq_getElem?_getD, List.getElem?_set_self h]
  rfl

theorem getD_drop (l : List ℚ) (n i : ℕ) : (l.drop n).getD i 0 = l.getD (n + i) 0 := by
  rw [List.getD_eq_getElem?_getD, List.getElem?_drop, ← List.getD_eq_getElem?_getD]

theorem getD_take (l : List ℚ) (n i : ℕ) :
    (l.take n).getD i 0 = if i < n then l.getD i 0 else 0 := by
  by_cases h : i < n
  · rw [if_pos h, List.getD_eq_getElem?_getD, List.getElem?_take_of_lt h,
      ← List.getD_eq_getElem?_getD]
  · rw [if_neg h]
    apply List.getD_eq_default
    rw [List.length_take]
    omega

/-- Length is preserved by the inner subtraction loop of `divideInner`. -/
theorem inner_foldl_length (a2 : List ℚ) (r : ℚ) (i : ℕ) :
    ∀ (m : ℕ) (a : List ℚ),
      ((List.range m).foldl
        (fun b j => b.set (i + j) (b.getD (i + j) 0 - r * a2.getD j 0)) a).length = a.length := by
  intro m
  induction m with
  | zero => intro a; rfl
  | succ n ih =>
    intro a
    rw [List.range_succ, List.foldl_append, List.foldl_cons, List.foldl_nil, List.length_set, ih]

/-- Pointwise description of the inner subtraction loop of `divideInner`:
position `k` with `i ≤ k < i + m` (and in range) receives
`a[k] - r * a2[k-i]`; other positions are unchanged. -/
theorem inner_foldl_getD (a2 : List ℚ) (r : ℚ) (i : ℕ) :
    ∀ (m : ℕ) (a : List ℚ) (k : ℕ),
      ((List.range m).foldl
        (fun b j => b.set (i + j) (b.getD (i + j) 0 - r * a2.getD j 0)) a).getD k 0 =
      if i ≤ k ∧ k < i + m ∧ k < a.length then a.getD k 0 - r * a2.getD (k - i) 0
      else a.getD k 0 := by
  intro m
  induction m with
  | zero =>
    intro a k
    rw [if_neg (by omega)]
    rfl
  | succ n ih =>
    intro a k
    rw [List.range_succ, List.foldl_append, List.foldl_cons, List.foldl_nil]
    have hplen := inner_foldl_length a2 r i n a
    by_cases hk : k = i + n
    · subst hk
      by_cases hin : i + n < a.length
      · rw [getD_set_eq _ _ (by rw [hplen]; exact hin)]
        rw [ih a (i + n), if_neg (by omega)]
        rw [if_pos ⟨by omega, by omega, hin⟩]
        have harg : i + n - i = n := by omega
        rw [harg]
      · rw [List.set_eq_of_length_le (by rw [hplen]; omega)]
        rw [ih a (i + n), if_neg (by omega), if_neg (by omega)]
    · rw [getD_set_ne _ _ (fun hc => hk hc.symm)]
      rw [ih a k]
      by_cases hcond : i ≤ k ∧ k < i + n ∧ k < a.length
      · rw [if_pos hcond, if_pos ⟨hcond.1, by omega, hcond.2.2⟩]
      · rw [if_neg hcond, if_neg (by omega)]

/-- Length is preserved by `divideInner`. -/
theorem divideInner_length (a2 : List ℚ) (n2 : ℕ) (lc2 : ℚ) (a : List ℚ) (i : ℕ) :
    (divideInner a2 n2 lc2 a i).length = a.length := by
  unfold divideInner
  rw [inner_foldl_length, List.length_set]

/-- Pointwise description of `divideInner`. -/
theorem divideInner_getD (a2 : List ℚ) (n2 : ℕ) (lc2 : ℚ) (a : List ℚ) (i k : ℕ)
    (hlen : n2 + i < a.length) :
    (divideInner a2 n2 lc2 a i).getD k 0 =
      if k = n2 + i then a.getD (n2 + i) 0 / lc2
      else if i ≤ k ∧ k < i + n2 then
        a.getD k 0 - (a.getD (n2 + i) 0 / lc2) * a2.getD (k - i) 0
      else a.getD k 0 := by
  unfold divideInner
  rw [inner_foldl_getD]
  by_cases hk : k = n2 + i
  · subst hk
    rw [if_neg (by omega), if_pos rfl]
    exact getD_set_eq _ _ hlen
  · rw [if_neg hk]
    have hset : (a.set (n2 + i) (a.getD (n2 + i) 0 / lc2)).getD k 0 = a.getD k 0 :=
      getD_set_ne _ _ (fun hc => hk hc.symm)
    rw [List.length_set]
    by_cases hcond : i ≤ k ∧ k < i + n2
    · rw [if_pos ⟨hcond.1, hcond.2, by omega⟩, if_pos hcond, hset]
    · rw [if_neg (by omega), if_neg hcond, hset]

/-- Coefficients of the interpreted `take` prefix. -/
theorem coeff_toPoly_take (a : List ℚ) (m k : ℕ) :
    (toPoly (a.take m)).coeff k = if k < m then a.getD k 0 else 0 := by
  rw [coeff_toPoly, getD_take]

/-- Coefficients of the interpreted `drop` suffix. -/
theorem coeff_toPoly_drop (a : List ℚ) (m k : ℕ) :
    (toPoly (a.drop m)).coeff k = a.getD (m + k) 0 := by
  rw [coeff_toPoly, getD_drop]

/-- Extending a `take` prefix by one position. -/
theorem toPoly_take_succ (a : List ℚ) (m : ℕ) (hm : m < a.length) :
    toPoly (a.take (m + 1)) =
      toPoly (a.take m) + Polynomial.C (a.getD m 0) * Polynomial.X ^ m := by
  apply Polynomial.ext
  intro k
  rw [coeff_toPoly_take, Polynomial.coeff_add, coeff_toPoly_take,
    Polynomial.coeff_C_mul_X_pow]
  by_cases hk : k = m
  · subst hk
    rw [if_pos (by omega), if_neg (by omega), if_pos rfl, zero_add]
  · rw [if_neg hk]
    by_cases hk2 : k < m
    · rw [if_pos (by omega), if_pos hk2, add_zero]
    · rw [if_neg (by omega), if_neg hk2, add_zero]

/-- Splitting off the head of a `drop` suffix. -/
theorem toPoly_drop_succ (a : List ℚ) (m : ℕ) :
    toPoly (a.drop m) =
      Polynomial.C (a.getD m 0) + Polynomial.X * toPoly (a.drop (m + 1)) := by
  apply Polynomial.ext
  intro k
  rw [coeff_toPoly_drop, Polynomial.coeff_add, Polynomial.coeff_C]
  cases k with
  | zero =>
    rw [Polynomial.coeff_X_mul_zero, if_pos rfl]
    simp
  | succ j =>
    rw [Polynomial.coeff_X_mul, coeff_toPoly_drop, if_neg (by omega), zero_add]
    congr 1
    omega

/-- One outer-loop step of the synthetic division preserves the division
invariant, moving the split point down by one. -/
theorem divideInner_poly_step {a2c : List ℚ} {n2 : ℕ} {lc2 : ℚ}
    (hn2 : a2c.length = n2 + 1) (hlc : a2c.getD n2 0 = lc2) (hlcne : lc2 ≠ 0)
    (a : List ℚ) (i : ℕ) (hlen : n2 + i < a.length) :
    Polynomial.X ^ (i + 1) * toPoly a2c * toPoly (a.drop (n2 + i + 1)) +
        toPoly (a.take (n2 + i + 1)) =
      Polynomial.X ^ i * toPoly a2c * toPoly ((divideInner a2c n2 lc2 a i).drop (n2 + i)) +
        toPoly ((divideInner a2c n2 lc2 a i).take (n2 + i)) := by
  set r := a.getD (n2 + i) 0 / lc2 with hr
  have hdrop : toPoly ((divideInner a2c n2 lc2 a i).drop (n2 + i)) =
      Polynomial.C r + Polynomial.X * toPoly (a.drop (n2 + i + 1)) := by
    rw [toPoly_drop_succ]
    have h0 : (divideInner a2c n2 lc2 a i).getD (n2 + i) 0 = r := by
      rw [divideInner_getD _ _ _ _ _ _ hlen, if_pos rfl]
    rw [h0]
    congr 1
    congr 1
    apply toPoly_ext
    intro k
    rw [getD_drop, getD_drop, divideInner_getD _ _ _ _ _ _ hlen,
      if_neg (by omega), if_neg (by omega)]
  have htake : toPoly ((divideInner a2c n2 lc2 a i).take (n2 + i)) =
      toPoly (a.take (n2 + i)) -
        Polynomial.C r * (Polynomial.X ^ i *
          (toPoly a2c - Polynomial.C lc2 * Polynomial.X ^ n2)) := by
    apply Polynomial.ext
    intro k
    rw [coeff_toPoly_take, Polynomial.coeff_sub, coeff_toPoly_take,
      Polynomial.coeff_C_mul, Polynomial.coeff_X_pow_mul', Polynomial.coeff_sub,
      coeff_toPoly, Polynomial.coeff_C_mul_X_pow]
    by_cases hk : k < n2 + i
    · rw [if_pos hk, if_pos hk, divideInner_getD _ _ _ _ _ _ hlen, if_neg (by omega)]
      by_cases hcond : i ≤ k ∧ k < i + n2
      · rw [if_pos hcond, if_pos hcond.1, if_neg (by omega)]
        ring
      · rw [if_neg hcond]
        by_cases hik : i ≤ k
        · exfalso
          omega
        · rw [if_neg hik, mul_zero, sub_zero]
    · rw [if_neg hk, if_neg hk]
      have hik : i ≤ k := by omega
      rw [if_pos hik]
      by_cases hkn : k - i = n2
      · rw [if_pos hkn, hkn, hlc, sub_self, mul_zero, sub_zero]
      · rw [if_neg hkn, List.getD_eq_default _ _ (by omega : a2c.length ≤ k - i),
          sub_zero, mul_zero, sub_zero]
  have htakes : toPoly (a.take (n2 + i + 1)) =
      toPoly (a.take (n2 + i)) + Polynomial.C (a.getD (n2 + i) 0) * Polynomial.X ^ (n2 + i) :=
    toPoly_take_succ a (n2 + i) hlen
  have hcc : Polynomial.C (a.getD (n2 + i) 0) = Polynomial.C r * Polynomial.C lc2 := by
    rw [← Polynomial.C_mul, hr, div_mul_cancel₀ _ hlcne]
  rw [hdrop, htake, htakes, hcc]
  ring

/-- Full correctness of the synthetic-division outer loop: after running the
loop from index `i` down to 0, splitting the work array at `n2` yields a
quotient/remainder decomposition of the original polynomial. -/
theorem divideFrom_spec {a2c : List ℚ} {n2 : ℕ} {lc2 : ℚ}
    (hn2 : a2c.length = n2 + 1) (hlc : a2c.getD n2 0 = lc2) (hlcne : lc2 ≠ 0) :
    ∀ (i : ℕ) (a : List ℚ), n2 + i < a.length →
      (divideFrom a2c n2 lc2 i a).length = a.length ∧
      toPoly a2c * toPoly ((divideFrom a2c n2 lc2 i a).drop n2) +
          toPoly ((divideFrom a2c n2 lc2 i a).take n2) =
        Polynomial.X ^ (i + 1) * toPoly a2c * toPoly (a.drop (n2 + i + 1)) +
          toPoly (a.take (n2 + i + 1)) := by
  intro i
  induction i with
  | zero =>
    intro a ha
    refine ⟨divideInner_length a2c n2 lc2 a 0, ?_⟩
    have h := (divideInner_poly_step hn2 hlc hlcne a 0 ha).symm
    rw [pow_zero, one_mul] at h
    exact h
  | succ n ihn =>
    intro a ha
    have hstep := divideInner_poly_step hn2 hlc hlcne a (n + 1) ha
    have hlen1 : (divideInner a2c n2 lc2 a (n + 1)).length = a.length :=
      divideInner_length a2c n2 lc2 a (n + 1)
    have hih := ihn (divideInner a2c n2 lc2 a (n + 1)) (by omega)
    refine ⟨by rw [show divideFrom a2c n2 lc2 (n + 1) a =
        divideFrom a2c n2 lc2 n (divideInner a2c n2 lc2 a (n + 1)) from rfl, hih.1, hlen1], ?_⟩
    rw [show divideFrom a2c n2 lc2 (n + 1) a =
        divideFrom a2c n2 lc2 n (divideInner a2c n2 lc2 a (n + 1)) from rfl]
    rw [hih.2]
    exact hstep.symm

theorem canonical_ne_nil {l : List ℚ} (h : canonicalList l) : l ≠ [] := by
  rcases h with h | ⟨c, hc, _⟩
  · rw [h]
    simp
  · intro hn
    rw [hn] at hc
    simp at hc

/-- `trim` at tolerance 0 is the identity on canonical lists. -/
theorem trim_canonical {m : List ℚ} {eps : Option ℚ} (he : eps.getD 0 = 0)
    (hc : canonicalList m) : trim m eps = .ok m := by
  unfold trim
  rw [he]
  rcases hc with h | ⟨c, hcl, hcne⟩
  · subst h
    norm_num [List.dropWhile]
  · rw [hcl]
    dsimp only
    rw [if_pos (abs_pos.mpr hcne)]

theorem canonical_length {l : List ℚ} (hc : canonicalList l) (h0 : toPoly l ≠ 0) :
    l.length = (toPoly l).natDegree + 1 := by
  rcases hc with h | ⟨c, hcl, hcne⟩
  · subst h
    exact absurd toPoly_zero_singleton h0
  · have hlt : (toPoly l).natDegree < l.length := natDegree_toPoly_lt h0
    have hge : l.length - 1 ≤ (toPoly l).natDegree := by
      apply Polynomial.le_natDegree_of_ne_zero
      rw [coeff_toPoly, getLast?_eq_getD hcl]
      exact hcne
    omega

theorem divByReal_getD (a : List ℚ) (c : ℚ) (k : ℕ) :
    (divByReal a c).getD k 0 = a.getD k 0 / c := by
  unfold divByReal
  by_cases hk : k < a.length
  · rw [List.getD_eq_getElem _ _ (by simpa using hk), List.getD_eq_getElem _ _ hk,
      List.getElem_map]
  · rw [List.getD_eq_default _ _ (by simpa using Nat.le_of_not_lt hk),
      List.getD_eq_default _ _ (Nat.le_of_not_lt hk), zero_div]

theorem toPoly_divByReal (a : List ℚ) (c : ℚ) :
    toPoly (divByReal a c) = toPoly a * Polynomial.C c⁻¹ := by
  apply Polynomial.ext
  intro k
  rw [coeff_toPoly, divByReal_getD, Polynomial.coeff_mul_C, coeff_toPoly, div_eq_mul_inv]

theorem not_lit_zero {p : List ℚ} (hp : toPoly p ≠ 0) :
    ¬(p.length = 1 ∧ p.getD 0 0 = 0) := by
  rintro ⟨hl, h0⟩
  apply hp
  have hform : p = [p.getD 0 0] := by
    cases p with
    | nil => simp at hl
    | cons x xs =>
      cases xs with
      | nil => simp
      | cons y ys => simp at hl
  rw [hform, h0, toPoly_zero_singleton]

/-- `multiply` succeeds on nonzero operands. -/
theorem multiply_ok {p q : List ℚ} (eps : Option ℚ) (hp : toPoly p ≠ 0)
    (hq : toPoly q ≠ 0) : ∃ m, multiply p q eps = .ok m := by
  have hpne := ne_nil_of_toPoly_ne_zero hp
  have hqne := ne_nil_of_toPoly_ne_zero hq
  unfold multiply
  rw [if_neg (by simp [List.isEmpty_iff, hpne, hqne])]
  rw [if_neg (not_or.mpr ⟨not_lit_zero hp, not_lit_zero hq⟩)]
  dsimp only
  apply trim_ok_of_ne_nil
  simp

/-- C6 core: exact round-trip at tolerance 0.  For polynomials `p`, `q`
that are nonzero (as polynomials), `divide (multiply p q) q` succeeds and
its quotient is exactly `trim p`; the remainder is the zero polynomial. -/
theorem divide_multiply_roundtrip (p q : List ℚ) (eps : Option ℚ)
    (he : eps.getD 0 = 0) (hp : toPoly p ≠ 0) (hq : toPoly q ≠ 0) :
    ∃ m tp rm, multiply p q eps = .ok m ∧ trim p eps = .ok tp ∧
      divide m q eps = .ok [tp, rm] ∧ toPoly rm = 0 := by
  obtain ⟨m, hmul⟩ := multiply_ok eps hp hq
  obtain ⟨hmpoly, hmcanon⟩ := multiply_spec he hp hq hmul
  have hpq : toPoly m ≠ 0 := by
    rw [hmpoly]
    exact mul_ne_zero hp hq
  have hmne : m ≠ [] := canonical_ne_nil hmcanon
  have hqne : q ≠ [] := ne_nil_of_toPoly_ne_zero hq
  obtain ⟨tp, htp⟩ := trim_ok_of_ne_nil (ne_nil_of_toPoly_ne_zero hp) eps
  obtain ⟨htppoly, htpcanon⟩ := trim_spec he htp
  obtain ⟨qc, hqc⟩ := trim_ok_of_ne_nil hqne eps
  obtain ⟨hqcpoly, hqccanon⟩ := trim_spec he hqc
  have hqcne0 : toPoly qc ≠ 0 := by
    rw [hqcpoly]
    exact hq
  by_cases hq1 : qc.length = 1
  · obtain ⟨c, hqceq⟩ : ∃ c, qc = [c] := by
      cases qc with
      | nil => simp at hq1
      | cons x xs =>
        cases xs with
        | nil => exact ⟨x, rfl⟩
        | cons y ys => simp at hq1
    have hgetd : qc.getD 0 0 = c := by
      rw [hqceq]
      rfl
    have hcne : c ≠ 0 := by
      intro h0
      apply hqcne0
      rw [hqceq, h0, toPoly_zero_singleton]
    have hqhat : toPoly q = Polynomial.C c := by
      rw [← hqcpoly, hqceq, toPoly_singleton]
    by_cases hc1 : c = 1
    · have hmtp : m = tp :=
        canonicalList_unique hmcanon htpcanon (by
          rw [hmpoly, htppoly, hqhat, hc1, Polynomial.C_1, mul_one])
      have hdiveq : divide m q eps = .ok [tp, [0]] := by
        unfold divide
        rw [if_neg (by simp [List.isEmpty_iff, hmne, hqne])]
        rw [trim_canonical he hmcanon, hqc]
        dsimp only
        rw [if_pos hq1, hgetd, if_neg hcne, if_pos hc1, hmtp]
      exact ⟨m, tp, [0], hmul, htp, hdiveq, toPoly_zero_singleton⟩
    · have hqcanon : canonicalList (divByReal m c) := by
        rcases hmcanon with hm0 | ⟨cm, hcm, hcmne⟩
        · exact absurd (by rw [hm0]; exact toPoly_zero_singleton) hpq
        · refine Or.inr ⟨cm / c, ?_, div_ne_zero hcmne hcne⟩
          unfold divByReal
          rw [List.getLast?_map, hcm]
          rfl
      have hqpoly : toPoly (divByReal m c) = toPoly tp := by
        rw [toPoly_divByReal, hmpoly, hqhat, htppoly, mul_assoc, ← Polynomial.C_mul,
          mul_inv_cancel₀ hcne, Polynomial.C_1, mul_one]
      have hmtp : divByReal m c = tp := canonicalList_unique hqcanon htpcanon hqpoly
      have hdiveq : divide m q eps = .ok [tp, [0]] := by
        unfold divide
        rw [if_neg (by simp [List.isEmpty_iff, hmne, hqne])]
        rw [trim_canonical he hmcanon, hqc]
        dsimp only
        rw [if_pos hq1, hgetd, if_neg hcne, if_neg hc1, hmtp]
      exact ⟨m, tp, [0], hmul, htp, hdiveq, toPoly_zero_singleton⟩
  · have hmlen : m.length = (toPoly p).natDegree + (toPoly q).natDegree + 1 := by
      rw [canonical_length hmcanon hpq, hmpoly, Polynomial.natDegree_mul hp hq]
    have hqclen : qc.length = (toPoly q).natDegree + 1 := by
      rw [canonical_length hqccanon hqcne0, hqcpoly]
    have hqcpos : 2 ≤ qc.length := by
      have := List.length_pos.mpr (canonical_ne_nil hqccanon)
      omega
    have hn1n2 : qc.length - 1 ≤ m.length - 1 := by omega
    obtain ⟨lc, hlc, hlcne⟩ : ∃ lc, qc.getLast? = some lc ∧ lc ≠ 0 := by
      rcases hqccanon with h0 | h
      · exfalso
        apply hqcne0
        rw [h0]
        exact toPoly_zero_singleton
      · exact h
    have hlc2 : qc.getD (qc.length - 1) 0 = lc := getLast?_eq_getD hlc
    have hqc2 : qc.length = (qc.length - 1) + 1 := by omega
    have hflen : (qc.length - 1) + ((m.length - 1) - (qc.length - 1)) < m.length := by omega
    obtain ⟨haflen, hafpoly⟩ :=
      divideFrom_spec hqc2 hlc2 hlcne ((m.length - 1) - (qc.length - 1)) m hflen
    set n2 := qc.length - 1 with hn2def
    set af := divideFrom qc n2 lc ((m.length - 1) - n2) m with hafdef
    have hidx : n2 + ((m.length - 1) - n2) + 1 = m.length := by omega
    rw [hidx, List.drop_length, toPoly_nil, mul_zero, zero_add, List.take_length] at hafpoly
    have hkey : toPoly qc * toPoly (af.drop n2) + toPoly (af.take n2) = toPoly m := hafpoly
    have hqdeg : (toPoly q).degree = (n2 : WithBot ℕ) := by
      have hnd : (toPoly q).natDegree = n2 := by omega
      rw [Polynomial.degree_eq_natDegree hq, hnd]
    have hRdeg : (toPoly (af.take n2)).degree < (toPoly q).degree := by
      rw [hqdeg]
      calc (toPoly (af.take n2)).degree < ((af.take n2).length : WithBot ℕ) :=
            degree_toPoly_lt _
        _ ≤ (n2 : WithBot ℕ) := by
            have hmin : (af.take n2).length ≤ n2 := by
              rw [List.length_take]
              exact min_le_left _ _
            exact_mod_cast hmin
    have hdiff : toPoly q * (toPoly (af.drop n2) - toPoly p) = -(toPoly (af.take n2)) := by
      have hkey2 : toPoly qc * toPoly (af.drop n2) + toPoly (af.take n2) =
          toPoly p * toPoly q := by
        rw [hkey, hmpoly]
      rw [hqcpoly] at hkey2
      linear_combination hkey2
    have hQp : toPoly (af.drop n2) = toPoly p ∧ toPoly (af.take n2) = 0 := by
      by_cases hne : toPoly (af.drop n2) - toPoly p = 0
      · constructor
        · exact sub_eq_zero.mp hne
        · have h0 := hdiff
          rw [hne, mul_zero] at h0
          exact neg_eq_zero.mp h0.symm
      · exfalso
        have hge : (toPoly q).degree ≤ (toPoly q * (toPoly (af.drop n2) - toPoly p)).degree :=
          Polynomial.degree_le_mul_left _ hne
        rw [hdiff, Polynomial.degree_neg] at hge
        exact absurd hRdeg (not_lt.mpr hge)
    have hdropne : af.drop n2 ≠ [] := by
      intro hnil
      have hl := List.drop_eq_nil_iff.mp hnil
      omega
    have htakene : af.take n2 ≠ [] := by
      intro hnil
      rcases List.take_eq_nil_iff.mp hnil with h0 | h0
      · omega
      · rw [h0] at haflen
        simp at haflen
        omega
    obtain ⟨qt, hqt⟩ := trim_ok_of_ne_nil hdropne eps
    obtain ⟨hqtpoly, hqtcanon⟩ := trim_spec he hqt
    obtain ⟨rm, hrm⟩ := trim_ok_of_ne_nil htakene eps
    obtain ⟨hrmpoly, hrmcanon⟩ := trim_spec he hrm
    have hqttp : qt = tp := canonicalList_unique hqtcanon htpcanon (by
      rw [hqtpoly, hQp.1, htppoly])
    have hdiveq : divide m q eps = .ok [tp, rm] := by
      unfold divide
      rw [if_neg (by simp [List.isEmpty_iff, hmne, hqne])]
      rw [trim_canonical he hmcanon, hqc]
      dsimp only
      rw [if_neg hq1]
      rw [if_neg (by omega : ¬ m.length - 1 < qc.length - 1)]
      rw [← hn2def, hlc2, ← hafdef, hqt]
      dsimp only
      rw [hrm]
      dsimp only
      rw [hqttp]
    exact ⟨m, tp, rm, hmul, htp, hdiveq, by rw [hrmpoly, hQp.2]⟩

end PolyReal

/-- C3: counterexample.  `gcd` applied to the polynomials x² (`[0,0,1]`) and
x (`[0,1]`) succeeds and returns x (`[0,1]`), a nontrivial common factor, not
the constant polynomial `[1]`: the zero-remainder branch of the Euclidean
loop returns the current divisor. -/
theorem gcd_returns_nontrivial_factor :
    PolyReal.gcd [0, 0, 1] [0, 1] none = .ok [0, 1] ∧ ([0, 1] : List ℚ) ≠ [1] := by
  constructor
  · norm_num [PolyReal.gcd, PolyReal.trim, PolyReal.makeMonic, PolyReal.gcdAux, PolyReal.divide,
      PolyReal.divideFrom, PolyReal.divideInner, PolyReal.divByReal, List.dropWhile,
      List.range_succ, List.getD, List.set]
  · simp

/-- C3 (amended): whenever `gcd` succeeds, the result is either the constant
polynomial `[1]` (reached when the Euclidean loop runs the remainder's degree
below 1) or — when an exact zero remainder occurs first — the last monic
divisor, a monic polynomial of degree at least 1, which can be a nontrivial
common factor. -/
theorem gcd_ok_result_shape (a1 a2 : List ℚ) (eps : Option ℚ) (g : List ℚ)
    (h : PolyReal.gcd a1 a2 eps = .ok g) :
    g = [1] ∨ (2 ≤ g.length ∧ g.getLast? = some 1) := by
  unfold PolyReal.gcd at h
  split at h
  · simp at h
  · split at h
    · simp at h
    · split at h
      · simp at h
      · rename_i r1 hm1
        split at h
        · simp at h
        · rename_i r2 hm2
          dsimp only at h
          by_cases hsw : r1.length < r2.length
          · rw [if_pos hsw] at h
            exact PolyReal.gcdAux_ok_shape eps _ _ _ _ (PolyReal.makeMonic_getLast hm1) h
          · rw [if_neg hsw] at h
            exact PolyReal.gcdAux_ok_shape eps _ _ _ _ (PolyReal.makeMonic_getLast hm2) h

/-- C6: counterexample.  With a nonzero tolerance (here the system tolerance
`EPS = 1e-10`) the round-trip `divide(multiply(p,q,eps),q,eps)` does not
return `trim(p,eps)` within `eps`: for `p = [1, 5e-11]` and
`q = [1, 1e-6]`, the product's top coefficient (5e-17) is trimmed away, so
the quotient comes out as `[1.00005]` while `trim(p,eps) = [1]` — a
coefficient difference of `5e-5 > eps` (checked with the library's own
`compareEqual`). -/
theorem divide_multiply_roundtrip_eps_counterexample :
    PolyReal.multiply [1, 1 / 20000000000] [1, 1 / 1000000] (some PolyReal.EPS) =
        .ok [1, 20001 / 20000000000] ∧
      PolyReal.divide [1, 20001 / 20000000000] [1, 1 / 1000000] (some PolyReal.EPS) =
        .ok [[20001 / 20000], [-1 / 20000]] ∧
      PolyReal.trim [1, 1 / 20000000000] (some PolyReal.EPS) = .ok [1] ∧
      PolyReal.compareEqual [20001 / 20000] [1] (some PolyReal.EPS) = false := by
  refine ⟨?_, ?_, ?_, ?_⟩
  · norm_num [PolyReal.multiply, PolyReal.trim, PolyReal.EPS, List.dropWhile,
      List.range_succ, List.range', List.getD, List.foldl, abs_of_nonneg]
  · norm_num [PolyReal.divide, PolyReal.trim, PolyReal.EPS, PolyReal.divideFrom,
      PolyReal.divideInner, PolyReal.divByReal, List.dropWhile, List.range_succ,
      List.getD, List.set, List.foldl, abs_of_nonneg]
  · norm_num [PolyReal.trim, PolyReal.EPS, List.dropWhile, abs_of_nonneg]
  · norm_num [PolyReal.compareEqual, PolyReal.EPS, List.range_succ, List.getD,
      abs_of_nonneg]

/-- C6: witness for `PolyReal.divide_multiply_roundtrip` at the concrete
input p = 1 + x, q = 2 + x, eps = 0. -/
theorem divide_multiply_roundtrip_witness :
    ∃ m tp rm, PolyReal.multiply [1, 1] [2, 1] (some 0) = .ok m ∧
      PolyReal.trim [1, 1] (some 0) = .ok tp ∧
      PolyReal.divide m [2, 1] (some 0) = .ok [tp, rm] ∧ PolyReal.toPoly rm = 0 := by
  have hp : PolyReal.toPoly [1, 1] ≠ 0 := by
    intro h
    have h0 := Polynomial.ext_iff.mp h 0
    rw [PolyReal.coeff_toPoly] at h0
    simp at h0
  have hq : PolyReal.toPoly [2, 1] ≠ 0 := by
    intro h
    have h0 := Polynomial.ext_iff.mp h 0
    rw [PolyReal.coeff_toPoly] at h0
    simp at h0
  exact PolyReal.divide_multiply_roundtrip [1, 1] [2, 1] (some 0) rfl hp hq

/-- C3: witness for `gcd_ok_result_shape` at the concrete input x², x. -/
theorem gcd_ok_result_shape_witness :
    ([0, 1] : List ℚ) = [1] ∨ (2 ≤ ([0, 1] : List ℚ).length ∧ ([0, 1] : List ℚ).getLast? = some 1) :=
  gcd_ok_result_shape [0, 0, 1] [0, 1] none [0, 1] (by
    norm_num [PolyReal.gcd, PolyReal.trim, PolyReal.makeMonic, PolyReal.gcdAux, PolyReal.divide,
      PolyReal.divideFrom, PolyReal.divideInner, PolyReal.divByReal, List.dropWhile,
      List.range_succ, List.getD, List.set])

-- ===========================================================================
-- Claim theorems about the klatt.rs embedding.
-- ===========================================================================

/-- C5: every filter (LpFilter1, Resonator, AntiResonator) in passthrough
mode returns its input unchanged for every input and every delay-line
state; in muted mode it always returns 0. -/
theorem filter_step_passthrough_mute :
    (∀ (s : LpFilter1) (x : F), s.passthrough = true → (s.step x).1 = x) ∧
    (∀ (s : LpFilter1) (x : F), s.passthrough = false → s.muted = true →
      (s.step x).1 = F.fin 0) ∧
    (∀ (s : Resonator) (x : F), s.passthrough = true → (s.step x).1 = x) ∧
    (∀ (s : Resonator) (x : F), s.passthrough = false → s.muted = true →
      (s.step x).1 = F.fin 0) ∧
    (∀ (s : AntiResonator) (x : F), s.passthrough = true → (s.step x).1 = x) ∧
    (∀ (s : AntiResonator) (x : F), s.passthrough = false → s.muted = true →
      (s.step x).1 = F.fin 0) := by
  refine ⟨?_, ?_, ?_, ?_, ?_, ?_⟩
  · intro s x h
    simp [LpFilter1.step, h]
  · intro s x h1 h2
    simp [LpFilter1.step, h1, h2]
  · intro s x h
    simp [Resonator.step, h]
  · intro s x h1 h2
    simp [Resonator.step, h1, h2]
  · intro s x h
    simp [AntiResonator.step, h]
  · intro s x h1 h2
    simp [AntiResonator.step, h1, h2]

/-- C5: witness for `filter_step_passthrough_mute` at fresh (passthrough)
and muted concrete filters. -/
theorem filter_step_passthrough_mute_witness :
    ((LpFilter1.new 44100).step (F.fin 5)).1 = F.fin 5 ∧
    (((LpFilter1.new 44100).setMute).step (F.fin 5)).1 = F.fin 0 ∧
    ((Resonator.new 44100).step (F.fin 7)).1 = F.fin 7 ∧
    (((Resonator.new 44100).setMute).step (F.fin 7)).1 = F.fin 0 ∧
    ((AntiResonator.new 44100).step (F.fin 9)).1 = F.fin 9 ∧
    (((AntiResonator.new 44100).setMute).step (F.fin 9)).1 = F.fin 0 :=
  ⟨filter_step_passthrough_mute.1 _ _ rfl,
   filter_step_passthrough_mute.2.1 _ _ rfl rfl,
   filter_step_passthrough_mute.2.2.1 _ _ rfl,
   filter_step_passthrough_mute.2.2.2.1 _ _ rfl rfl,
   filter_step_passthrough_mute.2.2.2.2.1 _ _ rfl,
   filter_step_passthrough_mute.2.2.2.2.2 _ _ rfl rfl⟩

/-- C4: `dbToLin` returns 0 when `db <= -99` or `db` is NaN, and
`10^(db/20)` otherwise; in particular `dbToLin (-20) = 0.1` and
`dbToLin 0 = 1`. -/
theorem dbToLin_spec :
    (∀ x : ℝ, x ≤ -99 → dbToLin (F.fin x) = F.fin 0) ∧
    dbToLin F.nan = F.fin 0 ∧
    (∀ x : ℝ, -99 < x → dbToLin (F.fin x) = F.fin (Real.rpow 10 (x / 20))) ∧
    dbToLin (F.fin (-20)) = F.fin (1 / 10) ∧
    dbToLin (F.fin 0) = F.fin 1 := by
  have hgen : ∀ x : ℝ, -99 < x → dbToLin (F.fin x) = F.fin (Real.rpow 10 (x / 20)) := by
    intro x h
    have hc : (F.le (F.fin x) (F.fin (-99)) || (F.fin x).isNanB) = false := by
      simp [F.le, F.isNanB]
      linarith
    unfold dbToLin
    rw [hc, if_neg (by simp)]
    show F.powF (F.fin 10) (F.div (F.fin x) (F.fin 20)) = _
    rw [F.div, if_neg (by norm_num)]
    rfl
  refine ⟨?_, rfl, hgen, ?_, ?_⟩
  · intro x h
    have hc : F.le (F.fin x) (F.fin (-99)) = true := by
      simp [F.le]
      exact h
    unfold dbToLin
    rw [hc, Bool.true_or, if_pos rfl]
  · rw [hgen (-20) (by norm_num)]
    congr 1
    have h1 : ((-20 : ℝ) / 20) = ((-1 : ℤ) : ℝ) := by norm_num
    rw [h1]
    show (10 : ℝ) ^ (((-1 : ℤ) : ℝ)) = 1 / 10
    rw [Real.rpow_intCast]
    norm_num
  · rw [hgen 0 (by norm_num)]
    congr 1
    show (10 : ℝ) ^ ((0 : ℝ) / 20) = 1
    norm_num

/-- C4: witness for `dbToLin_spec` at -100 dB and 5 dB. -/
theorem dbToLin_spec_witness :
    dbToLin (F.fin (-100)) = F.fin 0 ∧
    dbToLin (F.fin 5) = F.fin (Real.rpow 10 (5 / 20)) :=
  ⟨dbToLin_spec.1 (-100) (by norm_num), dbToLin_spec.2.2.1 5 (by norm_num)⟩

-- NaN propagation laws of the float model, used for C9/C10.

theorem F.mul_nan (a : F) : a * F.nan = F.nan := by cases a <;> rfl

theorem F.nan_mul (a : F) : F.nan * a = F.nan := by cases a <;> rfl

theorem F.add_nan (a : F) : a + F.nan = F.nan := by cases a <;> rfl

theorem F.nan_add (a : F) : F.nan + a = F.nan := by cases a <;> rfl

theorem F.sub_nan (a : F) : a - F.nan = F.nan := by cases a <;> rfl

theorem F.nan_sub (a : F) : F.nan - a = F.nan := by cases a <;> rfl

theorem F.div_nan (a : F) : a / F.nan = F.nan := by cases a <;> rfl

theorem F.nan_div (a : F) : F.nan / a = F.nan := by cases a <;> rfl

theorem F.cos_nan : F.cos F.nan = F.nan := rfl

theorem F.sin_nan : F.sin F.nan = F.nan := rfl

theorem F.sqrt_nan : F.sqrt F.nan = F.nan := rfl

theorem F.powF_nan_two : F.powF F.nan (F.fin 2) = F.nan := by
  norm_num [F.powF]

/-- Finite arithmetic of the float model. -/
theorem F.fin_mul_fin (x y : ℝ) : F.fin x * F.fin y = F.fin (x * y) := rfl

theorem F.fin_add_fin (x y : ℝ) : F.fin x + F.fin y = F.fin (x + y) := rfl

theorem F.fin_sub_fin (x y : ℝ) : F.fin x - F.fin y = F.fin (x - y) := by
  show F.add (F.fin x) (F.neg (F.fin y)) = F.fin (x - y)
  simp [F.add, F.neg]
  ring

theorem F.fin_div_fin (x y : ℝ) (hy : y ≠ 0) : F.fin x / F.fin y = F.fin (x / y) := by
  show F.div (F.fin x) (F.fin y) = F.fin (x / y)
  rw [F.div, if_neg hy]

/-- C9: a successful `set` call on any of the three filters leaves the
delay-line state (y1/y2, x1/x2) unchanged; only `set_passthrough` and
`set_mute` reset it to zero. -/
theorem set_preserves_delay_state :
    (∀ (s s' : LpFilter1) (f g : F) (eg : Option F),
       s.set f g eg = .ok s' → s'.y1 = s.y1) ∧
    (∀ s : LpFilter1, (s.setPassthrough).y1 = F.fin 0 ∧ (s.setMute).y1 = F.fin 0) ∧
    (∀ (s s' : Resonator) (f bw : F) (dc : Option F),
       s.set f bw dc = .ok s' → s'.y1 = s.y1 ∧ s'.y2 = s.y2) ∧
    (∀ s : Resonator,
       ((s.setPassthrough).y1 = F.fin 0 ∧ (s.setPassthrough).y2 = F.fin 0) ∧
       ((s.setMute).y1 = F.fin 0 ∧ (s.setMute).y2 = F.fin 0)) ∧
    (∀ (s s' : AntiResonator) (f bw : F),
       s.set f bw = .ok s' → s'.x1 = s.x1 ∧ s'.x2 = s.x2) ∧
    (∀ s : AntiResonator,
       ((s.setPassthrough).x1 = F.fin 0 ∧ (s.setPassthrough).x2 = F.fin 0) ∧
       ((s.setMute).x1 = F.fin 0 ∧ (s.setMute).x2 = F.fin 0)) := by
  refine ⟨?_, fun s => ⟨rfl, rfl⟩, ?_, fun s => ⟨⟨rfl, rfl⟩, ⟨rfl, rfl⟩⟩, ?_,
    fun s => ⟨⟨rfl, rfl⟩, ⟨rfl, rfl⟩⟩⟩
  · intro s s' f g eg h
    unfold LpFilter1.set at h
    dsimp only at h
    split at h
    · simp at h
    · cases h
      rfl
  · intro s s' f bw dc h
    unfold Resonator.set at h
    dsimp only at h
    split at h
    · simp at h
    · cases h
      exact ⟨rfl, rfl⟩
  · intro s s' f bw h
    unfold AntiResonator.set at h
    dsimp only at h
    split at h
    · simp at h
    · split at h
      · cases h
        exact ⟨rfl, rfl⟩
      · cases h
        exact ⟨rfl, rfl⟩

/-- C9: witness for `set_preserves_delay_state` at concrete valid
parameters (f = 1000 Hz, bandwidth 80 Hz, gain 1/2, sample rate 44100). -/
theorem set_preserves_delay_state_witness :
    (∃ s', (LpFilter1.new 44100).set (F.fin 1000) (F.fin (1 / 2)) none = .ok s' ∧
      s'.y1 = (LpFilter1.new 44100).y1) ∧
    (∃ s', (Resonator.new 44100).set (F.fin 500) (F.fin 80) none = .ok s' ∧
      s'.y1 = (Resonator.new 44100).y1 ∧ s'.y2 = (Resonator.new 44100).y2) ∧
    (∃ s', (AntiResonator.new 44100).set (F.fin 500) (F.fin 80) = .ok s' ∧
      s'.x1 = (AntiResonator.new 44100).x1 ∧ s'.x2 = (AntiResonator.new 44100).x2) ∧
    ((LpFilter1.new 44100).setPassthrough.y1 = F.fin 0 ∧
      (LpFilter1.new 44100).setMute.y1 = F.fin 0) := by
  refine ⟨?_, ?_, ?_, set_preserves_delay_state.2.1 (LpFilter1.new 44100)⟩
  · cases hs : (LpFilter1.new 44100).set (F.fin 1000) (F.fin (1 / 2)) none with
    | error e =>
      exfalso
      unfold LpFilter1.set at hs
      dsimp only at hs
      split at hs
      · rename_i hcond
        exact absurd hcond (by
          norm_num [F.le, F.ge, F.fin_div_fin, F.isInfiniteB, LpFilter1.new])
      · simp at hs
    | ok s' => exact ⟨s', rfl, set_preserves_delay_state.1 _ _ _ _ _ hs⟩
  · cases hs : (Resonator.new 44100).set (F.fin 500) (F.fin 80) none with
    | error e =>
      exfalso
      unfold Resonator.set at hs
      dsimp only at hs
      split at hs
      · rename_i hcond
        exact absurd hcond (by
          norm_num [F.le, F.lt, F.ge, F.fin_div_fin, F.isInfiniteB, Resonator.new])
      · simp at hs
    | ok s' => exact ⟨s', rfl, set_preserves_delay_state.2.2.1 _ _ _ _ _ hs⟩
  · cases hs : (AntiResonator.new 44100).set (F.fin 500) (F.fin 80) with
    | error e =>
      exfalso
      unfold AntiResonator.set at hs
      dsimp only at hs
      split at hs
      · rename_i hcond
        exact absurd hcond (by
          norm_num [F.le, F.ge, F.fin_div_fin, F.isInfiniteB, AntiResonator.new])
      · split at hs <;> simp at hs
    | ok s' => exact ⟨s', rfl, set_preserves_delay_state.2.2.2.2.1 _ _ _ _ hs⟩


theorem F.le_nan (a : F) : F.le a F.nan = false := by cases a <;> rfl

theorem F.nan_le (a : F) : F.le F.nan a = false := by cases a <;> rfl

theorem F.lt_nan (a : F) : F.lt a F.nan = false := by cases a <;> rfl

theorem F.nan_lt (a : F) : F.lt F.nan a = false := by cases a <;> rfl

theorem F.fin_le_fin (x y : ℝ) : F.le (F.fin x) (F.fin y) = decide (x ≤ y) := rfl

theorem F.fin_lt_fin (x y : ℝ) : F.lt (F.fin x) (F.fin y) = decide (x < y) := rfl

theorem F.exp_nan : F.exp F.nan = F.nan := rfl

/-- C10: NaN passes the validation of `LpFilter1::set` and `Resonator::set`
(the checks compare only sign, range and infiniteness, and every comparison
with NaN is false), so `set` returns Ok, the filter is left active
(passthrough and muted both false), and the computed coefficient `a` is
NaN-contaminated.  One conjunct per NaN-able argument. -/
theorem set_accepts_nan :
    (∀ (s : LpFilter1) (g0 : ℝ), 0 < g0 → g0 < 1 →
      ∃ s', s.set F.nan (F.fin g0) none = .ok s' ∧
        s'.passthrough = false ∧ s'.muted = false ∧ s'.a = F.nan) ∧
    (∀ (s : LpFilter1) (f0 : ℝ), 0 < f0 → f0 < (s.sampleRate : ℝ) / 2 →
      ∃ s', s.set (F.fin f0) F.nan none = .ok s' ∧
        s'.passthrough = false ∧ s'.muted = false ∧ s'.a = F.nan) ∧
    (∀ (s : LpFilter1) (f0 g0 : ℝ), 0 < f0 → f0 < (s.sampleRate : ℝ) / 2 →
      0 < g0 → g0 < 1 →
      ∃ s', s.set (F.fin f0) (F.fin g0) (some F.nan) = .ok s' ∧
        s'.passthrough = false ∧ s'.muted = false ∧ s'.a = F.nan) ∧
    (∀ (s : Resonator) (bw0 : ℝ), 0 < bw0 →
      ∃ s', s.set F.nan (F.fin bw0) none = .ok s' ∧
        s'.passthrough = false ∧ s'.muted = false ∧ s'.a = F.nan) ∧
    (∀ (s : Resonator) (f0 : ℝ), 0 ≤ f0 → f0 < (s.sampleRate : ℝ) / 2 →
      ∃ s', s.set (F.fin f0) F.nan none = .ok s' ∧
        s'.passthrough = false ∧ s'.muted = false ∧ s'.a = F.nan) ∧
    (∀ (s : Resonator) (f0 bw0 : ℝ), 0 ≤ f0 → f0 < (s.sampleRate : ℝ) / 2 → 0 < bw0 →
      ∃ s', s.set (F.fin f0) (F.fin bw0) (some F.nan) = .ok s' ∧
        s'.passthrough = false ∧ s'.muted = false ∧ s'.a = F.nan) := by
  refine ⟨?_, ?_, ?_, ?_, ?_, ?_⟩
  · intro s g0 h1 h2
    cases hs : s.set F.nan (F.fin g0) none with
    | error e =>
      exfalso
      unfold LpFilter1.set at hs
      dsimp only at hs
      split at hs
      · rename_i hcond
        norm_num [F.ge, F.le_nan, F.nan_le, F.fin_le_fin, F.isInfiniteB,
          Option.getD] at hcond
        try casesm* _ ∨ _
        all_goals linarith
      · simp at hs
    | ok s' =>
      refine ⟨s', rfl, ?_, ?_, ?_⟩ <;>
      · unfold LpFilter1.set at hs
        dsimp only at hs
        split at hs
        · simp at hs
        · cases hs
          simp [F.mul_nan, F.nan_mul, F.sub_nan, F.nan_sub, F.nan_div, F.div_nan,
            F.cos_nan, F.sqrt_nan, F.powF_nan_two, F.add_nan, F.nan_add, Option.getD]
  · intro s f0 h1 h2
    cases hs : s.set (F.fin f0) F.nan none with
    | error e =>
      exfalso
      unfold LpFilter1.set at hs
      dsimp only at hs
      split at hs
      · rename_i hcond
        norm_num [F.ge, F.le_nan, F.nan_le, F.fin_le_fin, F.isInfiniteB,
          F.fin_div_fin, Option.getD] at hcond
        try casesm* _ ∨ _
        all_goals linarith
      · simp at hs
    | ok s' =>
      refine ⟨s', rfl, ?_, ?_, ?_⟩ <;>
      · unfold LpFilter1.set at hs
        dsimp only at hs
        split at hs
        · simp at hs
        · cases hs
          simp [F.mul_nan, F.nan_mul, F.sub_nan, F.nan_sub, F.nan_div, F.div_nan,
            F.cos_nan, F.sqrt_nan, F.powF_nan_two, F.add_nan, F.nan_add, Option.getD]
  · intro s f0 g0 h1 h2 h3 h4
    cases hs : s.set (F.fin f0) (F.fin g0) (some F.nan) with
    | error e =>
      exfalso
      unfold LpFilter1.set at hs
      dsimp only at hs
      split at hs
      · rename_i hcond
        norm_num [F.ge, F.le_nan, F.nan_le, F.fin_le_fin, F.isInfiniteB,
          F.fin_div_fin, Option.getD] at hcond
        try casesm* _ ∨ _
        all_goals linarith
      · simp at hs
    | ok s' =>
      refine ⟨s', rfl, ?_, ?_, ?_⟩ <;>
      · unfold LpFilter1.set at hs
        dsimp only at hs
        split at hs
        · simp at hs
        · cases hs
          simp [F.mul_nan, F.nan_mul, F.sub_nan, F.nan_sub, F.nan_div, F.div_nan,
            F.cos_nan, F.sqrt_nan, F.powF_nan_two, F.add_nan, F.nan_add, Option.getD]
  · intro s bw0 h1
    cases hs : s.set F.nan (F.fin bw0) none with
    | error e =>
      exfalso
      unfold Resonator.set at hs
      dsimp only at hs
      split at hs
      · rename_i hcond
        norm_num [F.ge, F.le_nan, F.nan_le, F.lt_nan, F.nan_lt, F.fin_le_fin,
          F.fin_lt_fin, F.isInfiniteB, Option.getD] at hcond
        try casesm* _ ∨ _
        all_goals linarith
      · simp at hs
    | ok s' =>
      refine ⟨s', rfl, ?_, ?_, ?_⟩ <;>
      · unfold Resonator.set at hs
        dsimp only at hs
        split at hs
        · simp at hs
        · cases hs
          simp [F.mul_nan, F.nan_mul, F.sub_nan, F.nan_sub, F.nan_div, F.div_nan,
            F.cos_nan, F.sqrt_nan, F.powF_nan_two, F.add_nan, F.nan_add,
            F.exp_nan, Option.getD]
  · intro s f0 h1 h2
    cases hs : s.set (F.fin f0) F.nan none with
    | error e =>
      exfalso
      unfold Resonator.set at hs
      dsimp only at hs
      split at hs
      · rename_i hcond
        norm_num [F.ge, F.le_nan, F.nan_le, F.lt_nan, F.nan_lt, F.fin_le_fin,
          F.fin_lt_fin, F.isInfiniteB, F.fin_div_fin, Option.getD] at hcond
        try casesm* _ ∨ _
        all_goals linarith
      · simp at hs
    | ok s' =>
      refine ⟨s', rfl, ?_, ?_, ?_⟩ <;>
      · unfold Resonator.set at hs
        dsimp only at hs
        split at hs
        · simp at hs
        · cases hs
          simp [F.mul_nan, F.nan_mul, F.sub_nan, F.nan_sub, F.nan_div, F.div_nan,
            F.cos_nan, F.sqrt_nan, F.powF_nan_two, F.add_nan, F.nan_add,
            F.exp_nan, Option.getD]
  · intro s f0 bw0 h1 h2 h3
    cases hs : s.set (F.fin f0) (F.fin bw0) (some F.nan) with
    | error e =>
      exfalso
      unfold Resonator.set at hs
      dsimp only at hs
      split at hs
      · rename_i hcond
        norm_num [F.ge, F.le_nan, F.nan_le, F.lt_nan, F.nan_lt, F.fin_le_fin,
          F.fin_lt_fin, F.isInfiniteB, F.fin_div_fin, Option.getD] at hcond
        try casesm* _ ∨ _
        all_goals linarith
      · simp at hs
    | ok s' =>
      refine ⟨s', rfl, ?_, ?_, ?_⟩ <;>
      · unfold Resonator.set at hs
        dsimp only at hs
        split at hs
        · simp at hs
        · cases hs
          simp [F.mul_nan, F.nan_mul, F.sub_nan, F.nan_sub, F.nan_div, F.div_nan,
            F.cos_nan, F.sqrt_nan, F.powF_nan_two, F.add_nan, F.nan_add, Option.getD]

/-- Witness for `set_accepts_nan` at concrete filters with sample rate 44100,
g = 0.5, f = 1000, bw = 80. -/
theorem set_accepts_nan_witness :
    (0 : ℝ) < 1 / 2 ∧ (1 : ℝ) / 2 < 1 ∧ (0 : ℝ) < 1000 ∧
      (1000 : ℝ) < ((LpFilter1.new 44100).sampleRate : ℝ) / 2 ∧
      (0 : ℝ) < 80 ∧ (0 : ℝ) ≤ 1000 ∧
      (1000 : ℝ) < ((Resonator.new 44100).sampleRate : ℝ) / 2 ∧
    ((∃ s', (LpFilter1.new 44100).set F.nan (F.fin (1 / 2)) none = .ok s' ∧
        s'.passthrough = false ∧ s'.muted = false ∧ s'.a = F.nan) ∧
      (∃ s', (Resonator.new 44100).set (F.fin 1000) (F.fin 80) (some F.nan) = .ok s' ∧
        s'.passthrough = false ∧ s'.muted = false ∧ s'.a = F.nan)) := by
  refine ⟨by norm_num, by norm_num, by norm_num, by norm_num [LpFilter1.new],
    by norm_num, by norm_num, by norm_num [Resonator.new], ?_, ?_⟩
  · exact set_accepts_nan.1 (LpFilter1.new 44100) (1 / 2) (by norm_num) (by norm_num)
  · exact set_accepts_nan.2.2.2.2.2 (Resonator.new 44100) 1000 80 (by norm_num)
      (by norm_num [Resonator.new]) (by norm_num)

/-- On success `startNewPeriodCore` stores a period state whose fields are
exactly the ones computed in the body (the glottal-source restart never
touches `pState`). -/
theorem startNewPeriodCore_ok_pState
    (g g' : Generator) (fp : FrameParms)
    (hfp : g.fParms = some fp)
    (hs : startNewPeriodCore g = .ok g') :
    ∃ ps : PeriodState,
      g'.pState = some ps ∧
      ps.f0 = performFrequencyModulation fp.f0 fp.flutterLevel
        (F.fin (flutterTime g : ℝ)) ∧
      ps.periodLength = (if F.gt ps.f0 (F.fin 0) then
          (F.roundF (F.fin (g.mParms.sampleRate : ℝ) / ps.f0)).f64toNat else 1) ∧
      ps.openPhaseLength = (if 1 < ps.periodLength then
          (F.roundF (F.fin (ps.periodLength : ℝ) * fp.openPhaseRatio)).f64toNat
        else 0) ∧
      ps.positionInPeriod = 0 := by
  unfold startNewPeriodCore at hs
  rw [hfp] at hs
  dsimp only at hs
  unfold startGlottalSourcePeriod at hs
  dsimp only at hs
  split at hs
  · split at hs
    · split at hs
      · exact absurd hs (by simp)
      · injection hs with h
        subst h
        exact ⟨_, rfl, rfl, rfl, rfl, rfl⟩
    · exact absurd hs (by simp)
  · split at hs
    · injection hs with h
      subst h
      exact ⟨_, rfl, rfl, rfl, rfl, rfl⟩
    · exact absurd hs (by simp)
  · injection hs with h
    subst h
    exact ⟨_, rfl, rfl, rfl, rfl, rfl⟩

/-- C2: at every F0-period boundary the generator resets the position in the
period to 0, sets `periodLength = round(sampleRate / f0)` for a positive
(modulated) f0 and 1 otherwise, and sets
`openPhaseLength = round(periodLength * openPhaseRatio)` when
`periodLength > 1` and 0 otherwise; concretely, for f0 = 247 at
sample rate 44100 with no flutter and open-phase ratio 0.7 this gives
periodLength = 179 and openPhaseLength = 125. -/
theorem start_new_period_lengths :
    (∀ (g g' : Generator) (fp : FrameParms),
        g.fParms = some fp →
        startNewPeriodCore g = .ok g' →
        ∃ ps : PeriodState, g'.pState = some ps ∧
          ps.positionInPeriod = 0 ∧
          ps.f0 = performFrequencyModulation fp.f0 fp.flutterLevel
            (F.fin (flutterTime g : ℝ)) ∧
          (∀ x : ℝ, ps.f0 = F.fin x → 0 < x →
            ps.periodLength = (rustRound ((g.mParms.sampleRate : ℝ) / x)).toNat) ∧
          (F.gt ps.f0 (F.fin 0) = false → ps.periodLength = 1) ∧
          (∀ y : ℝ, fp.openPhaseRatio = F.fin y → 1 < ps.periodLength →
            ps.openPhaseLength = (rustRound ((ps.periodLength : ℝ) * y)).toNat) ∧
          (ps.periodLength ≤ 1 → ps.openPhaseLength = 0)) ∧
    (∀ (g g' : Generator) (fp : FrameParms),
        g.fParms = some fp →
        g.mParms.sampleRate = 44100 →
        fp.f0 = F.fin 247 →
        fp.flutterLevel = F.fin 0 →
        fp.openPhaseRatio = F.fin (7 / 10) →
        startNewPeriodCore g = .ok g' →
        ∃ ps : PeriodState, g'.pState = some ps ∧
          ps.periodLength = 179 ∧ ps.openPhaseLength = 125 ∧
          ps.positionInPeriod = 0) := by
  constructor
  · intro g g' fp hfp hs
    obtain ⟨ps, hps, hf0, hpl, hopl, hpos⟩ :=
      startNewPeriodCore_ok_pState g g' fp hfp hs
    refine ⟨ps, hps, hpos, hf0, ?_, ?_, ?_, ?_⟩
    · intro x hx hxpos
      rw [hpl, hx]
      rw [show F.gt (F.fin x) (F.fin 0) = true by
        simp [F.gt, F.fin_lt_fin, hxpos]]
      rw [if_pos rfl]
      rw [F.fin_div_fin _ _ (ne_of_gt hxpos)]
      simp [F.roundF, F.f64toNat, Int.floor_intCast]
    · intro hgt
      rw [hpl, hgt]
      simp
    · intro y hy hlt
      rw [hopl, if_pos hlt, hy]
      rw [F.fin_mul_fin]
      simp [F.roundF, F.f64toNat, Int.floor_intCast]
    · intro hle
      rw [hopl, if_neg (by omega)]
  · intro g g' fp hfp hsr hf0 hfl hopr hs
    obtain ⟨ps, hps, hf0e, hpl, hopl, hpos⟩ :=
      startNewPeriodCore_ok_pState g g' fp hfp hs
    have hf0v : ps.f0 = F.fin 247 := by
      rw [hf0e, hf0, hfl]
      norm_num [performFrequencyModulation, F.fin_le_fin]
    have hr1 : rustRound ((44100 : ℝ) / 247) = 179 := by
      unfold rustRound
      rw [if_pos (by norm_num), Int.floor_eq_iff]
      constructor <;> norm_num
    have hplv : ps.periodLength = 179 := by
      rw [hpl, hf0v, hsr]
      rw [show F.gt (F.fin (247 : ℝ)) (F.fin 0) = true by
        norm_num [F.gt, F.fin_lt_fin]]
      rw [if_pos rfl]
      rw [show (((44100 : ℕ) : ℝ)) = (44100 : ℝ) by norm_num]
      rw [F.fin_div_fin _ _ (by norm_num : (247 : ℝ) ≠ 0)]
      rw [show F.roundF (F.fin ((44100 : ℝ) / 247)) =
        F.fin ((179 : ℤ) : ℝ) by rw [F.roundF, hr1]]
      simp [F.f64toNat, Int.floor_intCast]
    have hr2 : rustRound ((179 : ℝ) * (7 / 10)) = 125 := by
      unfold rustRound
      rw [if_pos (by norm_num), Int.floor_eq_iff]
      constructor <;> norm_num
    have hoplv : ps.openPhaseLength = 125 := by
      rw [hopl, hplv, hopr, if_pos (by norm_num)]
      rw [F.fin_mul_fin]
      rw [show (((179 : ℕ) : ℝ)) = (179 : ℝ) by norm_num]
      rw [show F.roundF (F.fin ((179 : ℝ) * (7 / 10))) =
        F.fin ((125 : ℤ) : ℝ) by rw [F.roundF, hr2]]
      simp [F.f64toNat, Int.floor_intCast]
    exact ⟨ps, hps, hplv, hoplv, hpos⟩

/-- Witness for `start_new_period_lengths` on a concrete generator with an
active 247 Hz frame at sample rate 44100. -/
theorem start_new_period_lengths_witness :
    ∃ (g' : Generator) (ps : PeriodState),
      startNewPeriodCore
        { mParms := { sampleRate := 44100, glottalSourceType := GlottalSourceType.Noise }
          fParms := some
            { duration := 1
              f0 := F.fin 247
              flutterLevel := F.fin 0
              openPhaseRatio := F.fin (7 / 10)
              breathinessDb := F.fin 0
              tiltDb := F.fin 0
              gainDb := F.fin 0
              agcRmsLevel := F.fin 0
              nasalFormantFreq := F.fin 0
              nasalFormantBw := F.fin 0
              oralFormantFreq := []
              oralFormantBw := []
              cascadeEnabled := false
              cascadeVoicingDb := F.fin 0
              cascadeAspirationDb := F.fin 0
              cascadeAspirationMod := F.fin 0
              nasalAntiformantFreq := F.fin 0
              nasalAntiformantBw := F.fin 0
              parallelEnabled := false
              parallelVoicingDb := F.fin 0
              parallelAspirationDb := F.fin 0
              parallelAspirationMod := F.fin 0
              fricationDb := F.fin 0
              fricationMod := F.fin 0
              parallelBypassDb := F.fin 0
              nasalFormantDb := F.fin 0
              oralFormantDb := [] }
          newFParms := none
          fState := FrameState.new
          pState := none
          absPosition := 0
          tiltFilter := LpFilter1.new 44100
          outputLpFilter := Resonator.new 44100
          flutterTimeOffset := 0
          impulsiveGSource := none
          naturalGSource := none
          aspirationSourceCasc :=
            { lpFilter := LpFilter1.new 44100, rng := { stream := fun _ => 0, idx := 0 } }
          aspirationSourcePar :=
            { lpFilter := LpFilter1.new 44100, rng := { stream := fun _ => 0, idx := 0 } }
          fricationSourcePar :=
            { lpFilter := LpFilter1.new 44100, rng := { stream := fun _ => 0, idx := 0 } }
          nasalFormantCasc := Resonator.new 44100
          nasalAntiformantCasc := AntiResonator.new 44100
          oralFormantCasc := []
          nasalFormantPar := Resonator.new 44100
          oralFormantPar := []
          differencingFilterPar := DifferencingFilter.new
          rng := { stream := fun _ => 0, idx := 0 } } = .ok g' ∧
      g'.pState = some ps ∧ ps.periodLength = 179 ∧ ps.openPhaseLength = 125 ∧
      ps.positionInPeriod = 0 := by
  have hev : ∃ g2, startNewPeriodCore
        { mParms := { sampleRate := 44100, glottalSourceType := GlottalSourceType.Noise }
          fParms := some
            { duration := 1
              f0 := F.fin 247
              flutterLevel := F.fin 0
              openPhaseRatio := F.fin (7 / 10)
              breathinessDb := F.fin 0
              tiltDb := F.fin 0
              gainDb := F.fin 0
              agcRmsLevel := F.fin 0
              nasalFormantFreq := F.fin 0
              nasalFormantBw := F.fin 0
              oralFormantFreq := []
              oralFormantBw := []
              cascadeEnabled := false
              cascadeVoicingDb := F.fin 0
              cascadeAspirationDb := F.fin 0
              cascadeAspirationMod := F.fin 0
              nasalAntiformantFreq := F.fin 0
              nasalAntiformantBw := F.fin 0
              parallelEnabled := false
              parallelVoicingDb := F.fin 0
              parallelAspirationDb := F.fin 0
              parallelAspirationMod := F.fin 0
              fricationDb := F.fin 0
              fricationMod := F.fin 0
              parallelBypassDb := F.fin 0
              nasalFormantDb := F.fin 0
              oralFormantDb := [] }
          newFParms := none
          fState := FrameState.new
          pState := none
          absPosition := 0
          tiltFilter := LpFilter1.new 44100
          outputLpFilter := Resonator.new 44100
          flutterTimeOffset := 0
          impulsiveGSource := none
          naturalGSource := none
          aspirationSourceCasc :=
            { lpFilter := LpFilter1.new 44100, rng := { stream := fun _ => 0, idx := 0 } }
          aspirationSourcePar :=
            { lpFilter := LpFilter1.new 44100, rng := { stream := fun _ => 0, idx := 0 } }
          fricationSourcePar :=
            { lpFilter := LpFilter1.new 44100, rng := { stream := fun _ => 0, idx := 0 } }
          nasalFormantCasc := Resonator.new 44100
          nasalAntiformantCasc := AntiResonator.new 44100
          oralFormantCasc := []
          nasalFormantPar := Resonator.new 44100
          oralFormantPar := []
          differencingFilterPar := DifferencingFilter.new
          rng := { stream := fun _ => 0, idx := 0 } } = Except.ok g2 := by
    unfold startNewPeriodCore
    dsimp only
    unfold startGlottalSourcePeriod
    dsimp only
    exact ⟨_, rfl⟩
  obtain ⟨g2, hs⟩ := hev
  obtain ⟨ps, hps, h179, h125, h0⟩ :=
    start_new_period_lengths.2 _ g2 _ rfl rfl rfl rfl rfl hs
  exact ⟨g2, ps, hs, hps, h179, h125, h0⟩

/-- At a half-second absolute position the `time` value computed by the
period-boundary code is 0 (usize integer division), while a conversion of
the absolute sample position to real seconds would give 1/2: the flutter
time is not the absolute position in seconds. -/
theorem flutter_time_usize_division_counterexample :
    ((flutterTime
        { mParms := { sampleRate := 44100, glottalSourceType := GlottalSourceType.Noise }
          fParms := some
            { duration := 1
              f0 := F.fin 247
              flutterLevel := F.fin 0
              openPhaseRatio := F.fin (7 / 10)
              breathinessDb := F.fin 0
              tiltDb := F.fin 0
              gainDb := F.fin 0
              agcRmsLevel := F.fin 0
              nasalFormantFreq := F.fin 0
              nasalFormantBw := F.fin 0
              oralFormantFreq := []
              oralFormantBw := []
              cascadeEnabled := false
              cascadeVoicingDb := F.fin 0
              cascadeAspirationDb := F.fin 0
              cascadeAspirationMod := F.fin 0
              nasalAntiformantFreq := F.fin 0
              nasalAntiformantBw := F.fin 0
              parallelEnabled := false
              parallelVoicingDb := F.fin 0
              parallelAspirationDb := F.fin 0
              parallelAspirationMod := F.fin 0
              fricationDb := F.fin 0
              fricationMod := F.fin 0
              parallelBypassDb := F.fin 0
              nasalFormantDb := F.fin 0
              oralFormantDb := [] }
          newFParms := none
          fState := FrameState.new
          pState := none
          absPosition := 22050
          tiltFilter := LpFilter1.new 44100
          outputLpFilter := Resonator.new 44100
          flutterTimeOffset := 0
          impulsiveGSource := none
          naturalGSource := none
          aspirationSourceCasc :=
            { lpFilter := LpFilter1.new 44100, rng := { stream := fun _ => 0, idx := 0 } }
          aspirationSourcePar :=
            { lpFilter := LpFilter1.new 44100, rng := { stream := fun _ => 0, idx := 0 } }
          fricationSourcePar :=
            { lpFilter := LpFilter1.new 44100, rng := { stream := fun _ => 0, idx := 0 } }
          nasalFormantCasc := Resonator.new 44100
          nasalAntiformantCasc := AntiResonator.new 44100
          oralFormantCasc := []
          nasalFormantPar := Resonator.new 44100
          oralFormantPar := []
          differencingFilterPar := DifferencingFilter.new
          rng := { stream := fun _ => 0, idx := 0 } } : ℕ) : ℝ) = 0 ∧
    (((22050 : ℕ) : ℝ) / ((44100 : ℕ) : ℝ) + ((0 : ℕ) : ℝ)) = 1 / 2 ∧
    (0 : ℝ) ≠ 1 / 2 := by
  refine ⟨?_, by norm_num, by norm_num⟩
  norm_num [flutterTime]

/-- C7: the `time` value fed to the flutter frequency modulation at a period
start is `absPosition / sampleRate + flutterTimeOffset` computed in usize
(natural-number) arithmetic: the division truncates to whole seconds before
the offset is added. -/
theorem flutter_time_integer_seconds :
    (∀ g : Generator,
      flutterTime g = g.absPosition / g.mParms.sampleRate + g.flutterTimeOffset) ∧
    (∀ (g g' : Generator) (fp : FrameParms),
        g.fParms = some fp →
        startNewPeriodCore g = .ok g' →
        ∃ ps : PeriodState, g'.pState = some ps ∧
          ps.f0 = performFrequencyModulation fp.f0 fp.flutterLevel
            (F.fin ((g.absPosition / g.mParms.sampleRate + g.flutterTimeOffset : ℕ) : ℝ))) := by
  constructor
  · intro g
    rfl
  · intro g g' fp hfp hs
    obtain ⟨ps, hps, hf0, hrest⟩ := startNewPeriodCore_ok_pState g g' fp hfp hs
    exact ⟨ps, hps, hf0⟩

/-- Witness for `flutter_time_integer_seconds` on a concrete generator
half a second into the run. -/
theorem flutter_time_integer_seconds_witness :
    ∃ (g' : Generator) (ps : PeriodState),
      startNewPeriodCore
        { mParms := { sampleRate := 44100, glottalSourceType := GlottalSourceType.Noise }
          fParms := some
            { duration := 1
              f0 := F.fin 247
              flutterLevel := F.fin 0
              openPhaseRatio := F.fin (7 / 10)
              breathinessDb := F.fin 0
              tiltDb := F.fin 0
              gainDb := F.fin 0
              agcRmsLevel := F.fin 0
              nasalFormantFreq := F.fin 0
              nasalFormantBw := F.fin 0
              oralFormantFreq := []
              oralFormantBw := []
              cascadeEnabled := false
              cascadeVoicingDb := F.fin 0
              cascadeAspirationDb := F.fin 0
              cascadeAspirationMod := F.fin 0
              nasalAntiformantFreq := F.fin 0
              nasalAntiformantBw := F.fin 0
              parallelEnabled := false
              parallelVoicingDb := F.fin 0
              parallelAspirationDb := F.fin 0
              parallelAspirationMod := F.fin 0
              fricationDb := F.fin 0
              fricationMod := F.fin 0
              parallelBypassDb := F.fin 0
              nasalFormantDb := F.fin 0
              oralFormantDb := [] }
          newFParms := none
          fState := FrameState.new
          pState := none
          absPosition := 22050
          tiltFilter := LpFilter1.new 44100
          outputLpFilter := Resonator.new 44100
          flutterTimeOffset := 0
          impulsiveGSource := none
          naturalGSource := none
          aspirationSourceCasc :=
            { lpFilter := LpFilter1.new 44100, rng := { stream := fun _ => 0, idx := 0 } }
          aspirationSourcePar :=
            { lpFilter := LpFilter1.new 44100, rng := { stream := fun _ => 0, idx := 0 } }
          fricationSourcePar :=
            { lpFilter := LpFilter1.new 44100, rng := { stream := fun _ => 0, idx := 0 } }
          nasalFormantCasc := Resonator.new 44100
          nasalAntiformantCasc := AntiResonator.new 44100
          oralFormantCasc := []
          nasalFormantPar := Resonator.new 44100
          oralFormantPar := []
          differencingFilterPar := DifferencingFilter.new
          rng := { stream := fun _ => 0, idx := 0 } } = Except.ok g' ∧
      g'.pState = some ps ∧
      ps.f0 = performFrequencyModulation (F.fin 247) (F.fin 0)
        (F.fin (((22050 / 44100 + 0 : ℕ) : ℝ))) := by
  have hev : ∃ g2, startNewPeriodCore
        { mParms := { sampleRate := 44100, glottalSourceType := GlottalSourceType.Noise }
          fParms := some
            { duration := 1
              f0 := F.fin 247
              flutterLevel := F.fin 0
              openPhaseRatio := F.fin (7 / 10)
              breathinessDb := F.fin 0
              tiltDb := F.fin 0
              gainDb := F.fin 0
              agcRmsLevel := F.fin 0
              nasalFormantFreq := F.fin 0
              nasalFormantBw := F.fin 0
              oralFormantFreq := []
              oralFormantBw := []
              cascadeEnabled := false
              cascadeVoicingDb := F.fin 0
              cascadeAspirationDb := F.fin 0
              cascadeAspirationMod := F.fin 0
              nasalAntiformantFreq := F.fin 0
              nasalAntiformantBw := F.fin 0
              parallelEnabled := false
              parallelVoicingDb := F.fin 0
              parallelAspirationDb := F.fin 0
              parallelAspirationMod := F.fin 0
              fricationDb := F.fin 0
              fricationMod := F.fin 0
              parallelBypassDb := F.fin 0
              nasalFormantDb := F.fin 0
              oralFormantDb := [] }
          newFParms := none
          fState := FrameState.new
          pState := none
          absPosition := 22050
          tiltFilter := LpFilter1.new 44100
          outputLpFilter := Resonator.new 44100
          flutterTimeOffset := 0
          impulsiveGSource := none
          naturalGSource := none
          aspirationSourceCasc :=
            { lpFilter := LpFilter1.new 44100, rng := { stream := fun _ => 0, idx := 0 } }
          aspirationSourcePar :=
            { lpFilter := LpFilter1.new 44100, rng := { stream := fun _ => 0, idx := 0 } }
          fricationSourcePar :=
            { lpFilter := LpFilter1.new 44100, rng := { stream := fun _ => 0, idx := 0 } }
          nasalFormantCasc := Resonator.new 44100
          nasalAntiformantCasc := AntiResonator.new 44100
          oralFormantCasc := []
          nasalFormantPar := Resonator.new 44100
          oralFormantPar := []
          differencingFilterPar := DifferencingFilter.new
          rng := { stream := fun _ => 0, idx := 0 } } = Except.ok g2 := by
    unfold startNewPeriodCore
    dsimp only
    unfold startGlottalSourcePeriod
    dsimp only
    exact ⟨_, rfl⟩
  obtain ⟨g2, hs⟩ := hev
  obtain ⟨ps, hps, hf0⟩ := flutter_time_integer_seconds.2 _ g2 _ rfl hs
  exact ⟨g2, ps, hs, hps, hf0⟩

theorem F.zero_add' (x : F) : F.fin 0 + x = x := by
  cases x <;> first | rfl | (rw [F.fin_add_fin]; norm_num)

theorem F.one_mul' (x : F) : F.fin 1 * x = x := by
  cases x
  case fin y => rw [F.fin_mul_fin]; norm_num
  case inf => show F.mul (F.fin 1) F.inf = F.inf; norm_num [F.mul]
  case ninf => show F.mul (F.fin 1) F.ninf = F.ninf; norm_num [F.mul]
  case nan => rfl

theorem F.neg_one_mul' (x : F) : F.fin (-1) * x = F.neg x := by
  cases x
  case fin y => rw [F.fin_mul_fin]; simp [F.neg]
  case inf => show F.mul (F.fin (-1)) F.inf = F.neg F.inf; norm_num [F.mul, F.neg]
  case ninf => show F.mul (F.fin (-1)) F.ninf = F.neg F.ninf; norm_num [F.mul, F.neg]
  case nan => rfl

theorem F.sub_def (a b : F) : a - b = a + F.neg b := rfl

/-- C1: in `compute_parallel_branch`, the nasal formant and the first oral
formant filter the voicing source directly, the oral formants 2-6 filter
`source2` (differenced source plus frication noise) with the alternating
signs `-,+,-,+,-` in that order (not `+,-,+,-,+`), and the bypass term
`parallelBypassLin * source2` is added last. -/
theorem parallel_branch_formant_signs
    (g : Generator) (fp : FrameParms) (ps : PeriodState) (voice : F)
    (r0 r1 r2 r3 r4 r5 : Resonator)
    (hfp : g.fParms = some fp) (hps : g.pState = some ps)
    (hr : g.oralFormantPar = [r0, r1, r2, r3, r4, r5]) :
    ∃ source source2 : F,
      source = voice * g.fState.parallelVoicingLin +
        (g.aspirationSourcePar.getNext).1 * g.fState.parallelAspirationLin *
          (F.fin 1 - (if ps.positionInPeriod ≥ ps.periodLength / 2
            then fp.parallelAspirationMod else F.fin 0)) ∧
      source2 = (g.differencingFilterPar.step source).1 +
        (g.fricationSourcePar.getNext).1 * g.fState.fricationLin *
          (F.fin 1 - (if ps.positionInPeriod ≥ ps.periodLength / 2
            then fp.fricationMod else F.fin 0)) ∧
      (computeParallelBranch g voice).1 =
        (g.nasalFormantPar.step source).1 + (r0.step source).1
          - (r1.step source2).1 + (r2.step source2).1 - (r3.step source2).1
          + (r4.step source2).1 - (r5.step source2).1
          + g.fState.parallelBypassLin * source2 := by
  refine ⟨_, _, rfl, rfl, ?_⟩
  unfold computeParallelBranch
  rw [hfp, hps]
  dsimp only
  rw [hr]
  rw [show List.range' 1 (MAX_ORAL_FORMANTS - 1) = [1, 2, 3, 4, 5] from rfl]
  simp only [parallelFormantLoop, List.getD_cons_succ, List.getD_cons_zero,
    List.set]
  norm_num [F.zero_add', F.one_mul', F.neg_one_mul', F.sub_def]

/-- On a generator whose parallel filters are all in passthrough mode with
unit voicing gain and zero noise, the code's parallel-branch output is 1
while the output claimed by the spec (signs `+,-,+,-,+` for oral formants
2-6) would be 3: the sign pattern in the code is `-,+,-,+,-`. -/
theorem parallel_branch_sign_spec_counterexample :
    (computeParallelBranch
        { mParms := { sampleRate := 44100, glottalSourceType := GlottalSourceType.Noise }
          fParms := some
            { duration := 1
              f0 := F.fin 247
              flutterLevel := F.fin 0
              openPhaseRatio := F.fin (7 / 10)
              breathinessDb := F.fin 0
              tiltDb := F.fin 0
              gainDb := F.fin 0
              agcRmsLevel := F.fin 0
              nasalFormantFreq := F.fin 0
              nasalFormantBw := F.fin 0
              oralFormantFreq := []
              oralFormantBw := []
              cascadeEnabled := false
              cascadeVoicingDb := F.fin 0
              cascadeAspirationDb := F.fin 0
              cascadeAspirationMod := F.fin 0
              nasalAntiformantFreq := F.fin 0
              nasalAntiformantBw := F.fin 0
              parallelEnabled := true
              parallelVoicingDb := F.fin 0
              parallelAspirationDb := F.fin 0
              parallelAspirationMod := F.fin 0
              fricationDb := F.fin 0
              fricationMod := F.fin 0
              parallelBypassDb := F.fin 0
              nasalFormantDb := F.fin 0
              oralFormantDb := [] }
          newFParms := none
          fState :=
            { breathinessLin := F.fin 0
              gainLin := F.fin 0
              cascadeVoicingLin := F.fin 0
              cascadeAspirationLin := F.fin 0
              parallelVoicingLin := F.fin 1
              parallelAspirationLin := F.fin 0
              fricationLin := F.fin 0
              parallelBypassLin := F.fin 0 }
          pState := some PeriodState.new
          absPosition := 0
          tiltFilter := LpFilter1.new 44100
          outputLpFilter := Resonator.new 44100
          flutterTimeOffset := 0
          impulsiveGSource := none
          naturalGSource := none
          aspirationSourceCasc :=
            { lpFilter := LpFilter1.new 44100, rng := { stream := fun _ => 0, idx := 0 } }
          aspirationSourcePar :=
            { lpFilter := LpFilter1.new 44100, rng := { stream := fun _ => 0, idx := 0 } }
          fricationSourcePar :=
            { lpFilter := LpFilter1.new 44100, rng := { stream := fun _ => 0, idx := 0 } }
          nasalFormantCasc := Resonator.new 44100
          nasalAntiformantCasc := AntiResonator.new 44100
          oralFormantCasc := []
          nasalFormantPar := Resonator.new 44100
          oralFormantPar := [Resonator.new 0, Resonator.new 0, Resonator.new 0,
            Resonator.new 0, Resonator.new 0, Resonator.new 0]
          differencingFilterPar := DifferencingFilter.new
          rng := { stream := fun _ => 0, idx := 0 } } (F.fin 1)).1 = F.fin 1 ∧
    claimedParallelBranchOutput
        { mParms := { sampleRate := 44100, glottalSourceType := GlottalSourceType.Noise }
          fParms := some
            { duration := 1
              f0 := F.fin 247
              flutterLevel := F.fin 0
              openPhaseRatio := F.fin (7 / 10)
              breathinessDb := F.fin 0
              tiltDb := F.fin 0
              gainDb := F.fin 0
              agcRmsLevel := F.fin 0
              nasalFormantFreq := F.fin 0
              nasalFormantBw := F.fin 0
              oralFormantFreq := []
              oralFormantBw := []
              cascadeEnabled := false
              cascadeVoicingDb := F.fin 0
              cascadeAspirationDb := F.fin 0
              cascadeAspirationMod := F.fin 0
              nasalAntiformantFreq := F.fin 0
              nasalAntiformantBw := F.fin 0
              parallelEnabled := true
              parallelVoicingDb := F.fin 0
              parallelAspirationDb := F.fin 0
              parallelAspirationMod := F.fin 0
              fricationDb := F.fin 0
              fricationMod := F.fin 0
              parallelBypassDb := F.fin 0
              nasalFormantDb := F.fin 0
              oralFormantDb := [] }
          newFParms := none
          fState :=
            { breathinessLin := F.fin 0
              gainLin := F.fin 0
              cascadeVoicingLin := F.fin 0
              cascadeAspirationLin := F.fin 0
              parallelVoicingLin := F.fin 1
              parallelAspirationLin := F.fin 0
              fricationLin := F.fin 0
              parallelBypassLin := F.fin 0 }
          pState := some PeriodState.new
          absPosition := 0
          tiltFilter := LpFilter1.new 44100
          outputLpFilter := Resonator.new 44100
          flutterTimeOffset := 0
          impulsiveGSource := none
          naturalGSource := none
          aspirationSourceCasc :=
            { lpFilter := LpFilter1.new 44100, rng := { stream := fun _ => 0, idx := 0 } }
          aspirationSourcePar :=
            { lpFilter := LpFilter1.new 44100, rng := { stream := fun _ => 0, idx := 0 } }
          fricationSourcePar :=
            { lpFilter := LpFilter1.new 44100, rng := { stream := fun _ => 0, idx := 0 } }
          nasalFormantCasc := Resonator.new 44100
          nasalAntiformantCasc := AntiResonator.new 44100
          oralFormantCasc := []
          nasalFormantPar := Resonator.new 44100
          oralFormantPar := [Resonator.new 0, Resonator.new 0, Resonator.new 0,
            Resonator.new 0, Resonator.new 0, Resonator.new 0]
          differencingFilterPar := DifferencingFilter.new
          rng := { stream := fun _ => 0, idx := 0 } } (F.fin 1) = F.fin 3 ∧
    F.fin (1 : ℝ) ≠ F.fin (3 : ℝ) := by
  refine ⟨?_, ?_, ?_⟩
  · unfold computeParallelBranch
    dsimp only
    rw [show List.range' 1 (MAX_ORAL_FORMANTS - 1) = [1, 2, 3, 4, 5] from rfl]
    norm_num [parallelFormantLoop, List.getD_cons_succ, List.getD_cons_zero,
      List.set, Resonator.new, LpFilter1.new, DifferencingFilter.new,
      PeriodState.new, LpNoiseSource.getNext, getWhiteNoise, LpFilter1.step,
      Resonator.step, DifferencingFilter.step, F.fin_add_fin, F.fin_mul_fin,
      F.fin_sub_fin]
  · unfold claimedParallelBranchOutput
    dsimp only
    rw [show List.range' 1 (MAX_ORAL_FORMANTS - 1) = [1, 2, 3, 4, 5] from rfl]
    norm_num [parallelFormantLoopSpec, List.getD_cons_succ, List.getD_cons_zero,
      List.set, Resonator.new, LpFilter1.new, DifferencingFilter.new,
      PeriodState.new, LpNoiseSource.getNext, getWhiteNoise, LpFilter1.step,
      Resonator.step, DifferencingFilter.step, F.fin_add_fin, F.fin_mul_fin,
      F.fin_sub_fin]
  · intro h
    exact absurd (F.fin.inj h) (by norm_num)

/-- Witness for `parallel_branch_formant_signs` on a concrete generator with
six parallel oral formant resonators. -/
theorem parallel_branch_formant_signs_witness :
    ∃ source source2 : F,
      (computeParallelBranch
        { mParms := { sampleRate := 44100, glottalSourceType := GlottalSourceType.Noise }
          fParms := some
            { duration := 1
              f0 := F.fin 247
              flutterLevel := F.fin 0
              openPhaseRatio := F.fin (7 / 10)
              breathinessDb := F.fin 0
              tiltDb := F.fin 0
              gainDb := F.fin 0
              agcRmsLevel := F.fin 0
              nasalFormantFreq := F.fin 0
              nasalFormantBw := F.fin 0
              oralFormantFreq := []
              oralFormantBw := []
              cascadeEnabled := false
              cascadeVoicingDb := F.fin 0
              cascadeAspirationDb := F.fin 0
              cascadeAspirationMod := F.fin 0
              nasalAntiformantFreq := F.fin 0
              nasalAntiformantBw := F.fin 0
              parallelEnabled := true
              parallelVoicingDb := F.fin 0
              parallelAspirationDb := F.fin 0
              parallelAspirationMod := F.fin 0
              fricationDb := F.fin 0
              fricationMod := F.fin 0
              parallelBypassDb := F.fin 0
              nasalFormantDb := F.fin 0
              oralFormantDb := [] }
          newFParms := none
          fState :=
            { breathinessLin := F.fin 0
              gainLin := F.fin 0
              cascadeVoicingLin := F.fin 0
              cascadeAspirationLin := F.fin 0
              parallelVoicingLin := F.fin 1
              parallelAspirationLin := F.fin 0
              fricationLin := F.fin 0
              parallelBypassLin := F.fin 0 }
          pState := some PeriodState.new
          absPosition := 0
          tiltFilter := LpFilter1.new 44100
          outputLpFilter := Resonator.new 44100
          flutterTimeOffset := 0
          impulsiveGSource := none
          naturalGSource := none
          aspirationSourceCasc :=
            { lpFilter := LpFilter1.new 44100, rng := { stream := fun _ => 0, idx := 0 } }
          aspirationSourcePar :=
            { lpFilter := LpFilter1.new 44100, rng := { stream := fun _ => 0, idx := 0 } }
          fricationSourcePar :=
            { lpFilter := LpFilter1.new 44100, rng := { stream := fun _ => 0, idx := 0 } }
          nasalFormantCasc := Resonator.new 44100
          nasalAntiformantCasc := AntiResonator.new 44100
          oralFormantCasc := []
          nasalFormantPar := Resonator.new 44100
          oralFormantPar := [Resonator.new 0, Resonator.new 0, Resonator.new 0,
            Resonator.new 0, Resonator.new 0, Resonator.new 0]
          differencingFilterPar := DifferencingFilter.new
          rng := { stream := fun _ => 0, idx := 0 } } (F.fin 1)).1 =
        ((Resonator.new 44100).step source).1 + ((Resonator.new 0).step source).1
          - ((Resonator.new 0).step source2).1 + ((Resonator.new 0).step source2).1
          - ((Resonator.new 0).step source2).1 + ((Resonator.new 0).step source2).1
          - ((Resonator.new 0).step source2).1
          + F.fin 0 * source2 := by
  obtain ⟨s, s2, h1, h2, h3⟩ :=
    parallel_branch_formant_signs
        { mParms := { sampleRate := 44100, glottalSourceType := GlottalSourceType.Noise }
          fParms := some
            { duration := 1
              f0 := F.fin 247
              flutterLevel := F.fin 0
              openPhaseRatio := F.fin (7 / 10)
              breathinessDb := F.fin 0
              tiltDb := F.fin 0
              gainDb := F.fin 0
              agcRmsLevel := F.fin 0
              nasalFormantFreq := F.fin 0
              nasalFormantBw := F.fin 0
              oralFormantFreq := []
              oralFormantBw := []
              cascadeEnabled := false
              cascadeVoicingDb := F.fin 0
              cascadeAspirationDb := F.fin 0
              cascadeAspirationMod := F.fin 0
              nasalAntiformantFreq := F.fin 0
              nasalAntiformantBw := F.fin 0
              parallelEnabled := true
              parallelVoicingDb := F.fin 0
              parallelAspirationDb := F.fin 0
              parallelAspirationMod := F.fin 0
              fricationDb := F.fin 0
              fricationMod := F.fin 0
              parallelBypassDb := F.fin 0
              nasalFormantDb := F.fin 0
              oralFormantDb := [] }
          newFParms := none
          fState :=
            { breathinessLin := F.fin 0
              gainLin := F.fin 0
              cascadeVoicingLin := F.fin 0
              cascadeAspirationLin := F.fin 0
              parallelVoicingLin := F.fin 1
              parallelAspirationLin := F.fin 0
              fricationLin := F.fin 0
              parallelBypassLin := F.fin 0 }
          pState := some PeriodState.new
          absPosition := 0
          tiltFilter := LpFilter1.new 44100
          outputLpFilter := Resonator.new 44100
          flutterTimeOffset := 0
          impulsiveGSource := none
          naturalGSource := none
          aspirationSourceCasc :=
            { lpFilter := LpFilter1.new 44100, rng := { stream := fun _ => 0, idx := 0 } }
          aspirationSourcePar :=
            { lpFilter := LpFilter1.new 44100, rng := { stream := fun _ => 0, idx := 0 } }
          fricationSourcePar :=
            { lpFilter := LpFilter1.new 44100, rng := { stream := fun _ => 0, idx := 0 } }
          nasalFormantCasc := Resonator.new 44100
          nasalAntiformantCasc := AntiResonator.new 44100
          oralFormantCasc := []
          nasalFormantPar := Resonator.new 44100
          oralFormantPar := [Resonator.new 0, Resonator.new 0, Resonator.new 0,
            Resonator.new 0, Resonator.new 0, Resonator.new 0]
          differencingFilterPar := DifferencingFilter.new
          rng := { stream := fun _ => 0, idx := 0 } }
      _ _ (F.fin 1) _ _ _ _ _ _ rfl rfl rfl
  exact ⟨s, s2, h3⟩

theorem LpFilter1.lpSet_error_ne (s : LpFilter1) (f g : F) (eg : Option F)
    (e : String) (h : s.set f g eg = .error e) : e ≠ reuseErrorMsg := by
  unfold LpFilter1.set at h
  dsimp only at h
  split at h
  · injection h with h'
    subst h'
    decide
  · simp at h

theorem Resonator.resSet_error_ne (s : Resonator) (f bw : F) (dc : Option F)
    (e : String) (h : s.set f bw dc = .error e) : e ≠ reuseErrorMsg := by
  unfold Resonator.set at h
  dsimp only at h
  split at h
  · injection h with h'
    subst h'
    decide
  · simp at h

theorem AntiResonator.antiSet_error_ne (s : AntiResonator) (f bw : F)
    (e : String) (h : s.set f bw = .error e) : e ≠ reuseErrorMsg := by
  unfold AntiResonator.set at h
  dsimp only at h
  split at h
  · injection h with h'
    subst h'
    decide
  · split at h <;> simp at h

theorem Resonator.adjustPeakGain_error_ne (s : Resonator) (pg : F)
    (e : String) (h : s.adjustPeakGain pg = .error e) : e ≠ reuseErrorMsg := by
  unfold Resonator.adjustPeakGain at h
  split at h
  · injection h with h'
    subst h'
    decide
  · simp at h

theorem ImpulsiveGlottalSource.startPeriod_error_ne
    (s : ImpulsiveGlottalSource) (opl : ℕ) (e : String)
    (h : s.startPeriod opl = .error e) : e ≠ reuseErrorMsg := by
  unfold ImpulsiveGlottalSource.startPeriod at h
  dsimp only at h
  split at h
  · simp at h
  · split at h
    · rename_i e' heq
      injection h with h'
      subst h'
      exact Resonator.resSet_error_ne _ _ _ _ _ heq
    · simp at h

theorem setTiltFilter_error_ne (tf : LpFilter1) (tiltDb : F) (e : String)
    (h : setTiltFilter tf tiltDb = .error e) : e ≠ reuseErrorMsg := by
  unfold setTiltFilter at h
  split at h
  · simp at h
  · exact LpFilter1.lpSet_error_ne _ _ _ _ _ h

theorem setNasalFormantCasc_error_ne (r : Resonator) (fp : FrameParms)
    (e : String) (h : setNasalFormantCasc r fp = .error e) : e ≠ reuseErrorMsg := by
  unfold setNasalFormantCasc at h
  split at h
  · exact Resonator.resSet_error_ne _ _ _ _ _ h
  · simp at h

theorem setNasalAntiformantCasc_error_ne (r : AntiResonator) (fp : FrameParms)
    (e : String) (h : setNasalAntiformantCasc r fp = .error e) :
    e ≠ reuseErrorMsg := by
  unfold setNasalAntiformantCasc at h
  split at h
  · exact AntiResonator.antiSet_error_ne _ _ _ _ h
  · simp at h

theorem setOralFormantCasc_error_ne (r : Resonator) (fp : FrameParms) (i : ℕ)
    (e : String) (h : setOralFormantCasc r fp i = .error e) :
    e ≠ reuseErrorMsg := by
  unfold setOralFormantCasc at h
  dsimp only at h
  repeat' split at h
  all_goals first
    | exact Resonator.resSet_error_ne _ _ _ _ _ h
    | simp at h

theorem setNasalFormantPar_error_ne (r : Resonator) (fp : FrameParms)
    (e : String) (h : setNasalFormantPar r fp = .error e) : e ≠ reuseErrorMsg := by
  unfold setNasalFormantPar at h
  split at h
  · split at h
    · rename_i e' heq
      injection h with h'
      subst h'
      exact Resonator.resSet_error_ne _ _ _ _ _ heq
    · exact Resonator.adjustPeakGain_error_ne _ _ _ h
  · simp at h

theorem setOralFormantPar_error_ne (r : Resonator) (mp : MainParms)
    (fp : FrameParms) (i : ℕ) (e : String)
    (h : setOralFormantPar r mp fp i = .error e) : e ≠ reuseErrorMsg := by
  unfold setOralFormantPar at h
  dsimp only at h
  repeat' split at h
  all_goals first
    | (rename_i e' heq
       injection h with h'
       subst h'
       exact Resonator.resSet_error_ne _ _ _ _ _ heq)
    | exact Resonator.adjustPeakGain_error_ne _ _ _ h
    | simp at h

theorem setEachResonator_error_ne
    (setter : ℕ → Resonator → Except String Resonator)
    (hsetter : ∀ i r e, setter i r = .error e → e ≠ reuseErrorMsg)
    (rs : List Resonator) :
    ∀ (i : ℕ) (e : String),
      setEachResonator setter i rs = .error e → e ≠ reuseErrorMsg := by
  induction rs with
  | nil =>
    intro i e h
    simp [setEachResonator] at h
  | cons r rest ih =>
    intro i e h
    unfold setEachResonator at h
    split at h
    · rename_i e' heq
      injection h with h'
      subst h'
      exact hsetter _ _ _ heq
    · split at h
      · rename_i e' heq
        injection h with h'
        subst h'
        exact ih _ _ heq
      · simp at h

theorem startUsingNewFrameParameters_error_ne (g : Generator) (e : String)
    (h : startUsingNewFrameParameters g = .error e) : e ≠ reuseErrorMsg := by
  unfold startUsingNewFrameParameters at h
  split at h
  · injection h with h'
    subst h'
    decide
  · dsimp only at h
    split at h
    · rename_i e' heq
      injection h with h'
      subst h'
      exact setTiltFilter_error_ne _ _ _ heq
    · split at h
      · rename_i e' heq
        injection h with h'
        subst h'
        exact setNasalFormantCasc_error_ne _ _ _ heq
      · split at h
        · rename_i e' heq
          injection h with h'
          subst h'
          exact setNasalAntiformantCasc_error_ne _ _ _ heq
        · split at h
          · rename_i e' heq
            injection h with h'
            subst h'
            exact setEachResonator_error_ne _
              (fun i r e2 h2 => setOralFormantCasc_error_ne _ _ _ _ h2) _ _ _ heq
          · split at h
            · rename_i e' heq
              injection h with h'
              subst h'
              exact setNasalFormantPar_error_ne _ _ _ heq
            · split at h
              · rename_i e' heq
                injection h with h'
                subst h'
                exact setEachResonator_error_ne _
                  (fun i r e2 h2 => setOralFormantPar_error_ne _ _ _ _ _ h2) _ _ _ heq
              · simp at h

theorem startGlottalSourcePeriod_error_ne (g : Generator) (e : String)
    (h : startGlottalSourcePeriod g = .error e) : e ≠ reuseErrorMsg := by
  unfold startGlottalSourcePeriod at h
  split at h
  · split at h
    · split at h
      · rename_i e' heq
        injection h with h'
        subst h'
        exact ImpulsiveGlottalSource.startPeriod_error_ne _ _ _ heq
      · simp at h
    · injection h with h'
      subst h'
      decide
  · split at h
    · simp at h
    · injection h with h'
      subst h'
      decide
  · simp at h

theorem startNewPeriodCore_error_ne (g : Generator) (e : String)
    (h : startNewPeriodCore g = .error e) : e ≠ reuseErrorMsg := by
  unfold startNewPeriodCore at h
  dsimp only at h
  split at h
  · injection h with h'
    subst h'
    decide
  · exact startGlottalSourcePeriod_error_ne _ _ h

theorem startNewPeriod_error_ne (g : Generator) (e : String)
    (h : startNewPeriod g = .error e) : e ≠ reuseErrorMsg := by
  unfold startNewPeriod at h
  split at h
  · split at h
    · rename_i e' heq
      injection h with h'
      subst h'
      exact startUsingNewFrameParameters_error_ne _ _ heq
    · exact startNewPeriodCore_error_ne _ _ h
  · exact startNewPeriodCore_error_ne _ _ h

theorem genLoop_error_ne (n : ℕ) :
    ∀ (g : Generator) (acc : List F) (e : String),
      genLoop n g acc = .error e → e ≠ reuseErrorMsg := by
  induction n with
  | zero =>
    intro g acc e h
    simp [genLoop] at h
  | succ n ih =>
    intro g acc e h
    unfold genLoop at h
    split at h
    · rename_i e' heq
      injection h with h'
      subst h'
      split at heq
      · split at heq
        · exact startNewPeriod_error_ne _ _ heq
        · simp at heq
      · exact startNewPeriod_error_ne _ _ heq
    · dsimp only at h
      exact ih _ _ _ h

theorem generateFrameBody_error_ne (g : Generator) (fp : FrameParms) (n : ℕ)
    (e : String) (h : generateFrameBody g fp n = .error e) : e ≠ reuseErrorMsg := by
  unfold generateFrameBody at h
  split at h
  · rename_i e' heq
    injection h with h'
    subst h'
    exact genLoop_error_ne _ _ _ _ heq
  · dsimp only at h
    simp at h

/-- C8: `generate_frame` fails with the reuse error (and produces no
samples) exactly when the supplied frame parameters compare equal — by the
derived `PartialEq` — to the currently active ones; a generator without an
active frame (a fresh generator) can never fail the reuse check. -/
theorem generate_frame_reuse_check :
    (∀ (g : Generator) (p fp : FrameParms) (n : ℕ),
        g.fParms = some p → FrameParms.beq p fp = true →
        generateFrame g fp n = .error reuseErrorMsg) ∧
    (∀ (g : Generator) (fp : FrameParms) (n : ℕ),
        g.fParms = none →
        generateFrame g fp n ≠ .error reuseErrorMsg) := by
  constructor
  · intro g p fp n hfp hbeq
    unfold generateFrame
    rw [hfp]
    dsimp only
    rw [hbeq]
    simp
  · intro g fp n hfp hcontra
    unfold generateFrame at hcontra
    rw [hfp] at hcontra
    dsimp only at hcontra
    exact generateFrameBody_error_ne _ _ _ _ hcontra rfl

/-- Witness for `generate_frame_reuse_check`: re-supplying the active frame
parameters fails with the reuse error, and a fresh generator (no active
frame) never does. -/
theorem generate_frame_reuse_check_witness :
    FrameParms.beq
        { duration := 1
          f0 := F.fin 247
          flutterLevel := F.fin 0
          openPhaseRatio := F.fin (7 / 10)
          breathinessDb := F.fin 0
          tiltDb := F.fin 0
          gainDb := F.fin 0
          agcRmsLevel := F.fin 0
          nasalFormantFreq := F.fin 0
          nasalFormantBw := F.fin 0
          oralFormantFreq := []
          oralFormantBw := []
          cascadeEnabled := false
          cascadeVoicingDb := F.fin 0
          cascadeAspirationDb := F.fin 0
          cascadeAspirationMod := F.fin 0
          nasalAntiformantFreq := F.fin 0
          nasalAntiformantBw := F.fin 0
          parallelEnabled := false
          parallelVoicingDb := F.fin 0
          parallelAspirationDb := F.fin 0
          parallelAspirationMod := F.fin 0
          fricationDb := F.fin 0
          fricationMod := F.fin 0
          parallelBypassDb := F.fin 0
          nasalFormantDb := F.fin 0
          oralFormantDb := [] }
        { duration := 1
          f0 := F.fin 247
          flutterLevel := F.fin 0
          openPhaseRatio := F.fin (7 / 10)
          breathinessDb := F.fin 0
          tiltDb := F.fin 0
          gainDb := F.fin 0
          agcRmsLevel := F.fin 0
          nasalFormantFreq := F.fin 0
          nasalFormantBw := F.fin 0
          oralFormantFreq := []
          oralFormantBw := []
          cascadeEnabled := false
          cascadeVoicingDb := F.fin 0
          cascadeAspirationDb := F.fin 0
          cascadeAspirationMod := F.fin 0
          nasalAntiformantFreq := F.fin 0
          nasalAntiformantBw := F.fin 0
          parallelEnabled := false
          parallelVoicingDb := F.fin 0
          parallelAspirationDb := F.fin 0
          parallelAspirationMod := F.fin 0
          fricationDb := F.fin 0
          fricationMod := F.fin 0
          parallelBypassDb := F.fin 0
          nasalFormantDb := F.fin 0
          oralFormantDb := [] } = true ∧
    generateFrame
        { mParms := { sampleRate := 44100, glottalSourceType := GlottalSourceType.Noise }
          fParms := some
            { duration := 1
              f0 := F.fin 247
              flutterLevel := F.fin 0
              openPhaseRatio := F.fin (7 / 10)
              breathinessDb := F.fin 0
              tiltDb := F.fin 0
              gainDb := F.fin 0
              agcRmsLevel := F.fin 0
              nasalFormantFreq := F.fin 0
              nasalFormantBw := F.fin 0
              oralFormantFreq := []
              oralFormantBw := []
              cascadeEnabled := false
              cascadeVoicingDb := F.fin 0
              cascadeAspirationDb := F.fin 0
              cascadeAspirationMod := F.fin 0
              nasalAntiformantFreq := F.fin 0
              nasalAntiformantBw := F.fin 0
              parallelEnabled := false
              parallelVoicingDb := F.fin 0
              parallelAspirationDb := F.fin 0
              parallelAspirationMod := F.fin 0
              fricationDb := F.fin 0
              fricationMod := F.fin 0
              parallelBypassDb := F.fin 0
              nasalFormantDb := F.fin 0
              oralFormantDb := [] }
          newFParms := none
          fState := FrameState.new
          pState := none
          absPosition := 0
          tiltFilter := LpFilter1.new 44100
          outputLpFilter := Resonator.new 44100
          flutterTimeOffset := 0
          impulsiveGSource := none
          naturalGSource := none
          aspirationSourceCasc :=
            { lpFilter := LpFilter1.new 44100, rng := { stream := fun _ => 0, idx := 0 } }
          aspirationSourcePar :=
            { lpFilter := LpFilter1.new 44100, rng := { stream := fun _ => 0, idx := 0 } }
          fricationSourcePar :=
            { lpFilter := LpFilter1.new 44100, rng := { stream := fun _ => 0, idx := 0 } }
          nasalFormantCasc := Resonator.new 44100
          nasalAntiformantCasc := AntiResonator.new 44100
          oralFormantCasc := []
          nasalFormantPar := Resonator.new 44100
          oralFormantPar := []
          differencingFilterPar := DifferencingFilter.new
          rng := { stream := fun _ => 0, idx := 0 } }
        { duration := 1
          f0 := F.fin 247
          flutterLevel := F.fin 0
          openPhaseRatio := F.fin (7 / 10)
          breathinessDb := F.fin 0
          tiltDb := F.fin 0
          gainDb := F.fin 0
          agcRmsLevel := F.fin 0
          nasalFormantFreq := F.fin 0
          nasalFormantBw := F.fin 0
          oralFormantFreq := []
          oralFormantBw := []
          cascadeEnabled := false
          cascadeVoicingDb := F.fin 0
          cascadeAspirationDb := F.fin 0
          cascadeAspirationMod := F.fin 0
          nasalAntiformantFreq := F.fin 0
          nasalAntiformantBw := F.fin 0
          parallelEnabled := false
          parallelVoicingDb := F.fin 0
          parallelAspirationDb := F.fin 0
          parallelAspirationMod := F.fin 0
          fricationDb := F.fin 0
          fricationMod := F.fin 0
          parallelBypassDb := F.fin 0
          nasalFormantDb := F.fin 0
          oralFormantDb := [] } 1 = Except.error reuseErrorMsg ∧
    generateFrame
        { mParms := { sampleRate := 44100, glottalSourceType := GlottalSourceType.Noise }
          fParms := none
          newFParms := none
          fState := FrameState.new
          pState := none
          absPosition := 0
          tiltFilter := LpFilter1.new 44100
          outputLpFilter := Resonator.new 44100
          flutterTimeOffset := 0
          impulsiveGSource := none
          naturalGSource := none
          aspirationSourceCasc :=
            { lpFilter := LpFilter1.new 44100, rng := { stream := fun _ => 0, idx := 0 } }
          aspirationSourcePar :=
            { lpFilter := LpFilter1.new 44100, rng := { stream := fun _ => 0, idx := 0 } }
          fricationSourcePar :=
            { lpFilter := LpFilter1.new 44100, rng := { stream := fun _ => 0, idx := 0 } }
          nasalFormantCasc := Resonator.new 44100
          nasalAntiformantCasc := AntiResonator.new 44100
          oralFormantCasc := []
          nasalFormantPar := Resonator.new 44100
          oralFormantPar := []
          differencingFilterPar := DifferencingFilter.new
          rng := { stream := fun _ => 0, idx := 0 } }
        { duration := 1
          f0 := F.fin 247
          flutterLevel := F.fin 0
          openPhaseRatio := F.fin (7 / 10)
          breathinessDb := F.fin 0
          tiltDb := F.fin 0
          gainDb := F.fin 0
          agcRmsLevel := F.fin 0
          nasalFormantFreq := F.fin 0
          nasalFormantBw := F.fin 0
          oralFormantFreq := []
          oralFormantBw := []
          cascadeEnabled := false
          cascadeVoicingDb := F.fin 0
          cascadeAspirationDb := F.fin 0
          cascadeAspirationMod := F.fin 0
          nasalAntiformantFreq := F.fin 0
          nasalAntiformantBw := F.fin 0
          parallelEnabled := false
          parallelVoicingDb := F.fin 0
          parallelAspirationDb := F.fin 0
          parallelAspirationMod := F.fin 0
          fricationDb := F.fin 0
          fricationMod := F.fin 0
          parallelBypassDb := F.fin 0
          nasalFormantDb := F.fin 0
          oralFormantDb := [] } 0 ≠ Except.error reuseErrorMsg := by
  have hb : FrameParms.beq
        { duration := 1
          f0 := F.fin 247
          flutterLevel := F.fin 0
          openPhaseRatio := F.fin (7 / 10)
          breathinessDb := F.fin 0
          tiltDb := F.fin 0
          gainDb := F.fin 0
          agcRmsLevel := F.fin 0
          nasalFormantFreq := F.fin 0
          nasalFormantBw := F.fin 0
          oralFormantFreq := []
          oralFormantBw := []
          cascadeEnabled := false
          cascadeVoicingDb := F.fin 0
          cascadeAspirationDb := F.fin 0
          cascadeAspirationMod := F.fin 0
          nasalAntiformantFreq := F.fin 0
          nasalAntiformantBw := F.fin 0
          parallelEnabled := false
          parallelVoicingDb := F.fin 0
          parallelAspirationDb := F.fin 0
          parallelAspirationMod := F.fin 0
          fricationDb := F.fin 0
          fricationMod := F.fin 0
          parallelBypassDb := F.fin 0
          nasalFormantDb := F.fin 0
          oralFormantDb := [] }
        { duration := 1
          f0 := F.fin 247
          flutterLevel := F.fin 0
          openPhaseRatio := F.fin (7 / 10)
          breathinessDb := F.fin 0
          tiltDb := F.fin 0
          gainDb := F.fin 0
          agcRmsLevel := F.fin 0
          nasalFormantFreq := F.fin 0
          nasalFormantBw := F.fin 0
          oralFormantFreq := []
          oralFormantBw := []
          cascadeEnabled := false
          cascadeVoicingDb := F.fin 0
          cascadeAspirationDb := F.fin 0
          cascadeAspirationMod := F.fin 0
          nasalAntiformantFreq := F.fin 0
          nasalAntiformantBw := F.fin 0
          parallelEnabled := false
          parallelVoicingDb := F.fin 0
          parallelAspirationDb := F.fin 0
          parallelAspirationMod := F.fin 0
          fricationDb := F.fin 0
          fricationMod := F.fin 0
          parallelBypassDb := F.fin 0
          nasalFormantDb := F.fin 0
          oralFormantDb := [] } = true := by
    norm_num [FrameParms.beq, listBeqF, F.beq]
  refine ⟨hb, ?_, ?_⟩
  · exact generate_frame_reuse_check.1 _ _ _ 1 rfl hb
  · exact generate_frame_reuse_check.2 _ _ 0 rfl
